import Mathlib

set_option maxHeartbeats 1000000
set_option maxRecDepth 100000

/-!
Verification development for the tool-selection / multishot execution graph of
the rag-js-app repository.  The definitions below are a shallow embedding of
the TypeScript source (the multishot tool-selection graph and its helpers):
pure string manipulation is modelled over `List Char`, the JavaScript regular
expressions used by the source are modelled by bespoke decidable matchers that
follow each regex literally, and the graph nodes become pure functions on an
explicit state record, with the external calls (language model, search tool)
passed in as `Except`-valued outcomes.
-/

namespace ToolSelection

/-- ASCII lower-casing of one character, as JavaScript `toLowerCase` acts on
the ASCII queries handled here; used to model the `/i` regex flag. -/
def lcChar (c : Char) : Char :=
  if 'A' ≤ c ∧ c ≤ 'Z' then Char.ofNat (c.toNat + 32) else c

/-- Lower-cased character list of a string. -/
def lc (s : String) : List Char := s.toList.map lcChar

/-- Character list of a string literal (helper to write patterns). -/
def lit (s : String) : List Char := s.toList

/-- Does `s` start with `pat`? -/
def startsWithL : List Char → List Char → Bool
  | _, [] => true
  | [], _ :: _ => false
  | c :: cs, p :: ps => c = p && startsWithL cs ps

/-- Does `s` contain `pat` as a contiguous substring?  Models an unanchored
regex literal such as `/latest/`. -/
def containsL (s pat : List Char) : Bool :=
  match s with
  | [] => startsWithL [] pat
  | c :: t => startsWithL (c :: t) pat || containsL t pat

/-- Does `s` contain any of the given literals? Models `/a|b|c/`. -/
def containsAny (s : List Char) (pats : List (List Char)) : Bool :=
  pats.any fun p => containsL s p

/-- Is predicate `p` true of some suffix of `s` (i.e. does a position exist at
which a position-anchored matcher fires)? -/
def anyPos (p : List Char → Bool) : List Char → Bool
  | [] => p []
  | c :: t => p (c :: t) || anyPos p t

/-- Fueled worker for `seqMatch`; the fuel chosen by `seqMatch` always
suffices because each step shrinks `s.length + ps.length`. -/
def seqMatchFuel : Nat → List Char → List (List (List Char)) → Bool
  | _, _, [] => true
  | 0, _, _ :: _ => false
  | n + 1, s, g :: rest =>
      (g.any fun alt => startsWithL s alt && seqMatchFuel n (s.drop alt.length) rest) ||
      (match s with
       | [] => false
       | _ :: t => seqMatchFuel n t (g :: rest))

/-- `seqMatch s [A, B, ...]` models the regex `(a1|a2|…).*(b1|b2|…).*…` as a
substring test: the pieces must occur in order, each alternative taken from
its group, with arbitrary (possibly empty) gaps between consecutive pieces. -/
def seqMatch (s : List Char) (ps : List (List (List Char))) : Bool :=
  seqMatchFuel (s.length + ps.length + 1) s ps

/-- Alternation group from string literals. -/
def alts (l : List String) : List (List Char) := l.map String.toList

/-- Whitespace characters for the JavaScript `\s` class (ASCII subset). -/
def isWsChar (c : Char) : Bool :=
  c = ' ' || c = '\t' || c = '\n' || c = '\r' || c = '\x0b' || c = '\x0c'

/-- The character class `[\d\s\+\-\*\/\^\(\)\.]` of the calculator patterns. -/
def calcExprChar (c : Char) : Bool :=
  c.isDigit || isWsChar c || c = '+' || c = '-' || c = '*' || c = '/' ||
  c = '^' || c = '(' || c = ')' || c = '.'

/-- Tail test for `\s+[\d\s\+\-\*\/\^\(\)\.]+`: at least one whitespace
character followed by at least one class character (whitespace is itself in
the class, so one of each suffices, exactly as the backtracking regex). -/
def calcTailWs (r : List Char) : Bool :=
  match r with
  | a :: b :: _ => isWsChar a && calcExprChar b
  | _ => false

/-- Position-anchored matcher for `/what\s+is\s+[\d\s\+\-\*\/\^\(\)\.]+/i`
(`is` must start at the first non-whitespace character after `what`, since
`\s+` only matches whitespace). -/
def calcWhatIsAt (s : List Char) : Bool :=
  startsWithL s (lit ("what")) &&
    (match s.drop 4 with
     | a :: r => isWsChar a &&
         (let t := (a :: r).dropWhile isWsChar
          startsWithL t (lit ("is")) && calcTailWs (t.drop 2))
     | [] => false)

/-- Position-anchored matcher for `/calculate\s+[\d\s\+\-\*\/\^\(\)\.]+/i`. -/
def calcCalculateAt (s : List Char) : Bool :=
  startsWithL s (lit ("calculate")) && calcTailWs (s.drop 9)

/-- Position-anchored matcher for `/[\d\s\+\-\*\/\^\(\)\.]+\s*=\s*\?/i`: a
maximal class run (whitespace is in the class, so the `\s*` before `=` can
only match the empty string) followed by `=`, optional whitespace, and `?`. -/
def calcEqQAt (s : List Char) : Bool :=
  match s with
  | c :: _ =>
    calcExprChar c &&
      (let t := s.dropWhile calcExprChar
       startsWithL t (lit ("=")) &&
         startsWithL ((t.drop 1).dropWhile isWsChar) (lit ("?")))
  | [] => false

/-- Operators of the pattern `/\d+\s*[\+\-\*\/\^]\s*\d+/`. -/
def calcOpChar (c : Char) : Bool :=
  c = '+' || c = '-' || c = '*' || c = '/' || c = '^'

/-- Position-anchored matcher for `/\d+\s*[\+\-\*\/\^]\s*\d+/` (digit run,
optional whitespace, operator, optional whitespace, digit). -/
def calcDigitOpDigitAt (s : List Char) : Bool :=
  match s with
  | c :: _ =>
    c.isDigit &&
      (match (s.dropWhile Char.isDigit).dropWhile isWsChar with
       | o :: t2 => calcOpChar o &&
           (match t2.dropWhile isWsChar with
            | d :: _ => d.isDigit
            | [] => false)
       | [] => false)
  | [] => false

/-- `CALCULATOR_PATTERNS.some(pattern => pattern.test(query))` from the
source: the four calculator regexes tried at every position. -/
def calculatorMatch (q : String) : Bool :=
  let s := lc q
  anyPos calcWhatIsAt s || anyPos calcCalculateAt s ||
  anyPos calcEqQAt s || anyPos calcDigitOpDigitAt s

/-- Leading question words of `/^(?:who|what|when|…)/i` (prefix-anchored). -/
def serpQuestionWords : List String :=
  ["who","what","when","where","why","how","is","are","was","were","did",
   "do","does","can","could","should","would"]

/-- `SERPAPI_PATTERNS.some(pattern => pattern.test(query))` from the source. -/
def serpApiMatch (q : String) : Bool :=
  let s := lc q
  (serpQuestionWords.any fun w => startsWithL s (lit w)) ||
  containsAny s (alts ["latest","news","recent","current"]) ||
  containsAny s (alts ["stock price","market","weather"]) ||
  containsAny s (alts ["search for","lookup","find information"])

/-- The ten domain nouns shared by the `MULTISHOT_PATTERNS` blocks. -/
def multishotNouns : List String :=
  ["population","distance","height","age","temperature","gdp","sales",
   "revenue","cost","price"]

/-- Addition alternations `(plus|plus by|added to|combined with|sum of|total of|and)`. -/
def addOps : List String := ["plus","plus by","added to","combined with","sum of","total of","and"]

/-- Subtraction alternations `(minus|less|subtract|difference between|reduced by|from)`. -/
def subOps : List String := ["minus","less","subtract","difference between","reduced by","from"]

/-- Multiplication alternations `(multiplied by|times|product of|multiply|multiplication of)`. -/
def mulOps : List String := ["multiplied by","times","product of","multiply","multiplication of"]

/-- Division alternations `(divided by|per|quotient of|split by|division of)`. -/
def divOps : List String := ["divided by","per","quotient of","split by","division of"]

/-- One `/noun.*(op1|op2|…)/i` pattern. -/
def nounOpPattern (s : List Char) (noun : String) (ops : List String) : Bool :=
  seqMatch s [alts [noun], alts ops]

/-- All forty noun–operation patterns of `MULTISHOT_PATTERNS`. -/
def nounOpsMatch (s : List Char) : Bool :=
  multishotNouns.any fun n =>
    nounOpPattern s n addOps || nounOpPattern s n subOps ||
    nounOpPattern s n mulOps || nounOpPattern s n divOps

/-- `/percentage|percent|%/i`. -/
def percentPatternMatch (s : List Char) : Bool :=
  containsAny s (alts ["percentage","percent","%"])

/-- `/what is (the|a) (.*) (of|for) (.*) and (.*) (combined|together|in total)/i`. -/
def whatIsCombinedMatch (s : List Char) : Bool :=
  seqMatch s [alts ["what is the ", "what is a "], alts [" of ", " for "],
              alts [" and "], alts [" combined", " together", " in total"]]

/-- `/how (many|much) (.*) (in|of|for) both (.*) and (.*)/i`. -/
def howMuchBothMatch (s : List Char) : Bool :=
  seqMatch s [alts ["how many ", "how much "],
              alts [" in both ", " of both ", " for both "], alts [" and "]]

/-- `/what happens when you (add|subtract|multiply|divide) (.*) (with|by|and) (.*)/i`. -/
def whatHappensMatch (s : List Char) : Bool :=
  seqMatch s [alts ["what happens when you add ", "what happens when you subtract ",
                    "what happens when you multiply ", "what happens when you divide "],
              alts [" with ", " by ", " and "]]

/-- `/if (.*) (is|equals|has) (.*) and (.*) (is|equals|has) (.*), what is/i`. -/
def ifThenWhatMatch (s : List Char) : Bool :=
  seqMatch s [alts ["if "], alts [" is ", " equals ", " has "], alts [" and "],
              alts [" is ", " equals ", " has "], alts [", what is"]]

/-- `/combine|merge|total|aggregate|sum up/i`. -/
def combinePatternMatch (s : List Char) : Bool :=
  containsAny s (alts ["combine","merge","total","aggregate","sum up"])

/-- `/compare|contrast|difference between|gap/i`. -/
def comparePatternMatch (s : List Char) : Bool :=
  containsAny s (alts ["compare","contrast","difference between","gap"])

/-- `/ratio|proportion|relationship|correlation/i`. -/
def proportionPatternMatch (s : List Char) : Bool :=
  containsAny s (alts ["ratio","proportion","relationship","correlation"])

/-- Word characters of the regex class `\w`. -/
def isWordChar (c : Char) : Bool := c.isAlpha || c.isDigit || c = '_'

/-- Position-anchored matcher for
`/what is the \w+ of .* (divided by|multiplied by|times|plus|minus|added to|combined with|and)/i`:
after `what is the ` a non-empty word-character run must be immediately
followed by ` of `, and one of the operation alternatives (with its leading
space) must occur somewhere later. -/
def whatIsFieldOfAt (s : List Char) : Bool :=
  startsWithL s (lit ("what is the ")) &&
    (match s.drop 12 with
     | a :: r => isWordChar a &&
         (let t := (a :: r).dropWhile isWordChar
          startsWithL t (lit (" of ")) &&
            containsAny (t.drop 4)
              (alts [" divided by", " multiplied by", " times", " plus",
                     " minus", " added to", " combined with", " and"]))
     | [] => false)

/-- The previous matcher tried at every position (unanchored regex). -/
def whatIsFieldOfMatch (s : List Char) : Bool := anyPos whatIsFieldOfAt s

/-- `/how (many|much) .* (times|divided by|multiplied by|plus|minus|added to|combined with)/i`. -/
def howManyOpMatch (s : List Char) : Bool :=
  seqMatch s [alts ["how many ", "how much "],
              alts [" times", " divided by", " multiplied by", " plus",
                    " minus", " added to", " combined with"]]

/-- `/calculate .* (of|for) .* (based on|using)/i`. -/
def calcBasedOnMatch (s : List Char) : Bool :=
  seqMatch s [alts ["calculate "], alts [" of ", " for "], alts [" based on", " using"]]

/-- `/(find|get|calculate|compute|determine|tell me|what is).*(then|and then|after that|subsequently).*(add|subtract|multiply|divide|calculate|compute)/i`. -/
def findThenMatch (s : List Char) : Bool :=
  seqMatch s [alts ["find","get","calculate","compute","determine","tell me","what is"],
              alts ["then","and then","after that","subsequently"],
              alts ["add","subtract","multiply","divide","calculate","compute"]]

/-- `/(total population|combined population|aggregate population)/i`. -/
def totalPopulationMatch (s : List Char) : Bool :=
  containsAny s (alts ["total population","combined population","aggregate population"])

/-- `/(average|mean|median).*(of|across|between)/i`. -/
def averageOfMatch (s : List Char) : Bool :=
  seqMatch s [alts ["average","mean","median"], alts ["of","across","between"]]

/-- `/(increase|decrease|change|growth|reduction).*(by|of|percent)/i`. -/
def increaseByMatch (s : List Char) : Bool :=
  seqMatch s [alts ["increase","decrease","change","growth","reduction"],
              alts ["by","of","percent"]]

/-- `MULTISHOT_PATTERNS.some(pattern => pattern.test(state.query))` from the
source: the disjunction of every multishot detection pattern. -/
def multishotMatch (q : String) : Bool :=
  let s := lc q
  nounOpsMatch s || percentPatternMatch s || whatIsCombinedMatch s ||
  howMuchBothMatch s || whatHappensMatch s || ifThenWhatMatch s ||
  combinePatternMatch s || comparePatternMatch s || proportionPatternMatch s ||
  whatIsFieldOfMatch s || howManyOpMatch s || calcBasedOnMatch s ||
  findThenMatch s || totalPopulationMatch s || averageOfMatch s ||
  increaseByMatch s

/-! JSON values, as produced by `JSON.parse` inside `extractNumericValue`.
Numbers keep their source literal (`raw`); `jsNumToString` below models how
JavaScript prints them when the code calls `.toString()`. -/

inductive Json where
  | null
  | bool (b : Bool)
  | num (raw : String)
  | str (s : String)
  | arr (elems : List Json)
  | obj (fields : List (String × Json))

/-- JSON insignificant whitespace. -/
def jsonSkipWs (s : List Char) : List Char :=
  s.dropWhile fun c => c = ' ' || c = '\t' || c = '\n' || c = '\r'

/-- Single-character JSON escapes. -/
def jsonEscapeChar (e : Char) : Option Char :=
  if e = '"' then some '"'
  else if e = '\\' then some '\\'
  else if e = '/' then some '/'
  else if e = 'b' then some '\x08'
  else if e = 'f' then some '\x0c'
  else if e = 'n' then some '\n'
  else if e = 'r' then some '\r'
  else if e = 't' then some '\t'
  else none

/-- Hexadecimal digit value. -/
def hexVal? (c : Char) : Option Nat :=
  if c.isDigit then some (c.toNat - 48)
  else if 'a' ≤ c ∧ c ≤ 'f' then some (c.toNat - 87)
  else if 'A' ≤ c ∧ c ≤ 'F' then some (c.toNat - 55)
  else none

/-- String body parser (called after the opening quote); returns the decoded
content and the input after the closing quote.  A lone `\uXXXX` surrogate
decodes to the replacement produced by `Char.ofNat` (irrelevant here: no
claim exercises surrogate escapes). -/
def parseJsonString : Nat → List Char → Option (List Char × List Char)
  | 0, _ => none
  | n + 1, s =>
    match s with
    | [] => none
    | '"' :: rest => some ([], rest)
    | '\\' :: e :: rest =>
      match jsonEscapeChar e with
      | some c => (parseJsonString n rest).map fun p => (c :: p.1, p.2)
      | none =>
        if e = 'u' then
          match rest with
          | a :: b :: c2 :: d :: r2 =>
            match hexVal? a, hexVal? b, hexVal? c2, hexVal? d with
            | some ha, some hb, some hc, some hd =>
              (parseJsonString n r2).map fun p =>
                (Char.ofNat (((ha * 16 + hb) * 16 + hc) * 16 + hd) :: p.1, p.2)
            | _, _, _, _ => none
          | _ => none
        else none
    | c :: rest =>
      if c.toNat < 32 then none
      else (parseJsonString n rest).map fun p => (c :: p.1, p.2)

/-- Exponent tail of a JSON number literal. -/
def jsonNumTailExp (acc : List Char) (s : List Char) : Option (List Char × List Char) :=
  match s with
  | c :: t =>
    if c = 'e' || c = 'E' then
      match t with
      | sgn :: t2 =>
        if sgn = '+' || sgn = '-' then
          let ds := t2.takeWhile Char.isDigit
          if ds.isEmpty then none
          else some (acc ++ c :: sgn :: ds, t2.dropWhile Char.isDigit)
        else
          let ds := t.takeWhile Char.isDigit
          if ds.isEmpty then none
          else some (acc ++ c :: ds, t.dropWhile Char.isDigit)
      | [] => none
    else some (acc, s)
  | [] => some (acc, [])

/-- Fraction tail of a JSON number literal. -/
def jsonNumTailFrac (acc : List Char) (s : List Char) : Option (List Char × List Char) :=
  match s with
  | '.' :: t =>
    let ds := t.takeWhile Char.isDigit
    if ds.isEmpty then none
    else jsonNumTailExp (acc ++ '.' :: ds) (t.dropWhile Char.isDigit)
  | _ => jsonNumTailExp acc s

/-- Unsigned part of a JSON number literal (`0` or `[1-9][0-9]*`, then
fraction and exponent). -/
def parseJsonNumberBody (s : List Char) : Option (List Char × List Char) :=
  match s with
  | '0' :: t => jsonNumTailFrac ['0'] t
  | c :: t =>
    if c.isDigit then jsonNumTailFrac (c :: t.takeWhile Char.isDigit) (t.dropWhile Char.isDigit)
    else none
  | [] => none

/-- JSON number literal, returned as its raw text. -/
def parseJsonNumber (s : List Char) : Option (List Char × List Char) :=
  match s with
  | '-' :: t => (parseJsonNumberBody t).map fun p => ('-' :: p.1, p.2)
  | _ => parseJsonNumberBody s

/-- Insert a key into an object under construction, as JavaScript object
semantics: a duplicate key keeps its first position but takes the new value. -/
def objInsert : List (String × Json) → String → Json → List (String × Json)
  | [], k, v => [(k, v)]
  | (k', v') :: rest, k, v =>
    if k' = k then (k', v) :: rest else (k', v') :: objInsert rest k v

mutual

/-- Recursive-descent JSON value parser (fuel-indexed; `parseJson` supplies
ample fuel, which shrinks with every nested call). -/
def parseJsonValue : Nat → List Char → Option (Json × List Char)
  | 0, _ => none
  | n + 1, s =>
    match jsonSkipWs s with
    | [] => none
    | c :: t =>
      if c = '{' then
        (parseJsonMembers n t []).map fun p => (Json.obj p.1, p.2)
      else if c = '[' then
        (parseJsonElems n t []).map fun p => (Json.arr p.1, p.2)
      else if c = '"' then
        (parseJsonString n t).map fun p => (Json.str (String.mk p.1), p.2)
      else if startsWithL (c :: t) (lit ("true")) then some (Json.bool true, (c :: t).drop 4)
      else if startsWithL (c :: t) (lit ("false")) then some (Json.bool false, (c :: t).drop 5)
      else if startsWithL (c :: t) (lit ("null")) then some (Json.null, (c :: t).drop 4)
      else if c = '-' || c.isDigit then
        (parseJsonNumber (c :: t)).map fun p => (Json.num (String.mk p.1), p.2)
      else none

/-- Object members (called after `{`, or after a member separator with a
non-empty accumulator). -/
def parseJsonMembers : Nat → List Char → List (String × Json) → Option (List (String × Json) × List Char)
  | 0, _, _ => none
  | n + 1, s, acc =>
    match jsonSkipWs s with
    | '}' :: rest => if acc.isEmpty then some (acc, rest) else none
    | '"' :: t =>
      match parseJsonString n t with
      | none => none
      | some (k, r1) =>
        match jsonSkipWs r1 with
        | ':' :: r2 =>
          match parseJsonValue n r2 with
          | none => none
          | some (v, r3) =>
            match jsonSkipWs r3 with
            | ',' :: r4 => parseJsonMembers n r4 (objInsert acc (String.mk k) v)
            | '}' :: r4 => some (objInsert acc (String.mk k) v, r4)
            | _ => none
        | _ => none
    | _ => none

/-- Array elements (called after `[`, or after an element separator with a
non-empty accumulator). -/
def parseJsonElems : Nat → List Char → List Json → Option (List Json × List Char)
  | 0, _, _ => none
  | n + 1, s, acc =>
    match jsonSkipWs s with
    | ']' :: rest => if acc.isEmpty then some (acc.reverse, rest) else none
    | _ =>
      match parseJsonValue n s with
      | none => none
      | some (v, r1) =>
        match jsonSkipWs r1 with
        | ',' :: r2 => parseJsonElems n r2 (v :: acc)
        | ']' :: r2 => some ((v :: acc).reverse, r2)
        | _ => none

end

/-- `JSON.parse`: a strict top-level parse (trailing non-whitespace rejects). -/
def parseJson (s : String) : Option Json :=
  match parseJsonValue (s.length * 2 + 2) (s.toList) with
  | some (j, rest) => if (jsonSkipWs rest).isEmpty then some j else none
  | none => none

/-- Property read, as JavaScript `x.f`: `undefined` (`none`) unless `x` is an
object carrying the field. -/
def jsGetField (j : Json) (k : String) : Option Json :=
  match j with
  | .obj fields => (fields.find? fun kv => kv.1 = k).map fun kv => kv.2
  | _ => none

/-- Is the numeric literal zero (all mantissa digits `0`)? -/
def jsNumIsZero (raw : String) : Bool :=
  (raw.toList.filter Char.isDigit).all fun c => c = '0'

/-- JavaScript truthiness of a parsed JSON value. -/
def jsTruthy (j : Json) : Bool :=
  match j with
  | .null => false
  | .bool b => b
  | .num raw => !jsNumIsZero raw
  | .str s => decide (s ≠ "")
  | .arr _ => true
  | .obj _ => true

/-- Strip trailing zeros from a fraction digit list. -/
def stripTrailingZeros (l : List Char) : List Char :=
  (l.reverse.dropWhile fun c => c = '0').reverse

/-- Canonical digit string for an integer digit list (drop leading zeros,
keep at least one digit). -/
def canonIntDigits (l : List Char) : List Char :=
  match l.dropWhile fun c => c = '0' with
  | [] => ['0']
  | ds => ds

/-- `Number.prototype.toString` for a value given by decimal mantissa digits
and a decimal exponent, in the plain (non-exponential) notation JavaScript
uses for the magnitudes arising here.  The IEEE-754 rounding of extreme
literals and the exponential display ranges are not modelled; no claim
exercises them. -/
def decDigitsToString (neg : Bool) (digits : List Char) (exp10 : Int) : String :=
  let ds := canonIntDigits digits
  if ds = ['0'] then ("0")
  else
    let core :=
      if 0 ≤ exp10 then
        ds ++ List.replicate exp10.toNat '0'
      else
        let k := (-exp10).toNat
        if k < ds.length then
          let intPart := ds.take (ds.length - k)
          let frac := stripTrailingZeros (ds.drop (ds.length - k))
          if frac.isEmpty then intPart else intPart ++ '.' :: frac
        else
          let frac := stripTrailingZeros (List.replicate (k - ds.length) '0' ++ ds)
          if frac.isEmpty then ['0'] else '0' :: '.' :: frac
    String.mk (if neg then '-' :: core else core)

/-- Decompose a JSON number literal into sign, mantissa digits and decimal
exponent. -/
def splitNumLiteral (raw : String) : Bool × List Char × Int :=
  let l := raw.toList
  let neg := l.head? = some '-'
  let l1 := if neg then l.drop 1 else l
  let intPart := l1.takeWhile Char.isDigit
  let afterInt := l1.dropWhile Char.isDigit
  let frac := match afterInt with
    | '.' :: t => t.takeWhile Char.isDigit
    | _ => []
  let afterFrac := match afterInt with
    | '.' :: t => t.dropWhile Char.isDigit
    | _ => afterInt
  let exp : Int := match afterFrac with
    | e :: t =>
      if e = 'e' || e = 'E' then
        match t with
        | '-' :: t2 => -(Int.ofNat (String.mk (t2.takeWhile Char.isDigit)).toNat!)
        | '+' :: t2 => Int.ofNat (String.mk (t2.takeWhile Char.isDigit)).toNat!
        | _ => Int.ofNat (String.mk (t.takeWhile Char.isDigit)).toNat!
      else 0
    | [] => 0
  (neg, intPart ++ frac, exp - Int.ofNat frac.length)

/-- `.toString()` on a number that came out of `JSON.parse`. -/
def jsNumToString (raw : String) : String :=
  match splitNumLiteral raw with
  | (neg, digits, exp10) => decDigitsToString neg digits exp10

/-- `for (const key in x)` enumeration: own enumerable keys of an object in
insertion order, indices of an array or a string (character values for the
latter), nothing for primitives. -/
def jsForInEntries (j : Json) : List (String × Json) :=
  match j with
  | .obj fields => fields
  | .arr elems => elems.enum.map fun p => (toString p.1, p.2)
  | .str s => s.toList.enum.map fun p => (toString p.1, Json.str (String.mk [p.2]))
  | _ => []

/-- `replace(/[^\d.]/g, '')` from the population extraction. -/
def stripNonDigitDot (s : String) : String :=
  String.mk (s.toList.filter fun c => c.isDigit || c = '.')

/-- The `jsonResult.X && jsonResult.X.population` check of
`extractNumericValue`: `.ok none` falls through, `.ok (some v)` returns `v`,
and `.error ()` models the `TypeError` thrown by `.replace` when the
`population` field is truthy but not a string — the surrounding `try` then
abandons the whole JSON branch. -/
def populationCheck (j : Json) (field : String) : Except Unit (Option String) :=
  match jsGetField j field with
  | none => .ok none
  | some kg =>
    if jsTruthy kg then
      match jsGetField kg ("population") with
      | none => .ok none
      | some pop =>
        if jsTruthy pop then
          match pop with
          | .str p => .ok (some (stripNonDigitDot p))
          | _ => .error ()
        else .ok none
    else .ok none

/-- Digit-or-comma class `[\d,]`. -/
def isDigitCommaChar (c : Char) : Bool := c.isDigit || c = ','

/-- First match of `/[\d,]+/`, if any. -/
def firstDigitCommaRun : List Char → Option (List Char)
  | [] => none
  | c :: t =>
    if isDigitCommaChar c then some ((c :: t).takeWhile isDigitCommaChar)
    else firstDigitCommaRun t

/-- `replace(/,/g, '')`. -/
def stripCommas (l : List Char) : List Char := l.filter fun c => c ≠ ','

/-- The `for (const key in jsonResult)` loop of `extractNumericValue`: the
first numeric field is returned via `.toString()`; the first string field
containing `[\d,]+` is returned with commas stripped; other fields are
skipped. -/
def forInScan : List (String × Json) → Option String
  | [] => none
  | kv :: rest =>
    match kv.2 with
    | .num raw => some (jsNumToString raw)
    | .str sv =>
      match firstDigitCommaRun sv.toList with
      | some run => some (String.mk (stripCommas run))
      | none => forInScan rest
    | _ => forInScan rest

/-- The `try { JSON.parse … }` branch of `extractNumericValue`: `none` both
when the parse fails and when the parsed value yields nothing (including the
`TypeError` on `null` property access or a non-string `population`, which the
`catch` swallows). -/
def jsonExtract (result : String) : Option String :=
  match parseJson result with
  | none => none
  | some j =>
    match j with
    | .null => none
    | _ =>
      match populationCheck j ("knowledge_graph") with
      | .error _ => none
      | .ok (some v) => some v
      | .ok none =>
        match populationCheck j ("answer_box") with
        | .error _ => none
        | .ok (some v) => some v
        | .ok none => forInScan (jsForInEntries j)

/-- First match of `/\d+(?:\.\d+)?/`, if any (the whole matched text). -/
def plainNumberMatch : List Char → Option (List Char)
  | [] => none
  | c :: t =>
    if c.isDigit then
      let run := (c :: t).takeWhile Char.isDigit
      let rest := (c :: t).dropWhile Char.isDigit
      match rest with
      | '.' :: d :: _ =>
        if d.isDigit then some (run ++ '.' :: ((rest.drop 1).takeWhile Char.isDigit))
        else some run
      | _ => some run
    else plainNumberMatch t

/-- First match of `/[\d,]+(?:\.\d+)?/`, if any (the whole matched text). -/
def formattedNumberMatch : List Char → Option (List Char)
  | [] => none
  | c :: t =>
    if isDigitCommaChar c then
      let run := (c :: t).takeWhile isDigitCommaChar
      let rest := (c :: t).dropWhile isDigitCommaChar
      match rest with
      | '.' :: d :: _ =>
        if d.isDigit then some (run ++ '.' :: ((rest.drop 1).takeWhile Char.isDigit))
        else some run
      | _ => some run
    else formattedNumberMatch t

/-- Position-anchored matcher for `/(\d+(?:\.\d+)?)\s*million/i`, returning
the captured number token. -/
def millionMatchAt (s : List Char) : Option (List Char) :=
  match s with
  | c :: t =>
    if c.isDigit then
      let run := (c :: t).takeWhile Char.isDigit
      let rest := (c :: t).dropWhile Char.isDigit
      let token := match rest with
        | '.' :: d :: _ =>
          if d.isDigit then run ++ '.' :: ((rest.drop 1).takeWhile Char.isDigit)
          else run
        | _ => run
      let after := (c :: t).drop token.length
      if startsWithL ((after.dropWhile isWsChar).map lcChar) (lit ("million")) then some token
      else none
    else none
  | [] => none

/-- First match of the million pattern anywhere in the input. -/
def millionMatch : List Char → Option (List Char)
  | [] => none
  | c :: t =>
    match millionMatchAt (c :: t) with
    | some r => some r
    | none => millionMatch t

/-- `parseFloat(match) * 1000000` followed by `.toString()`, modelled as
exact decimal scaling (exact for the integral results produced by the short
literals this path meets; IEEE-754 rounding is not modelled and no claim
exercises this branch). -/
def scaleMillion (token : List Char) : String :=
  let intPart := token.takeWhile Char.isDigit
  let frac := match token.dropWhile Char.isDigit with
    | '.' :: t => t.takeWhile Char.isDigit
    | _ => []
  decDigitsToString false (intPart ++ frac) (6 - Int.ofNat frac.length)

/-- `extractNumericValue` from `resolveCalculatorDependencies` (source lines
294–360): JSON field extraction first, then the `X million` pattern, then a
comma-formatted number, then a plain number; `none` when nothing matched. -/
def extractNumericValue (result : String) : Option String :=
  match jsonExtract result with
  | some v => some v
  | none =>
    match millionMatch result.toList with
    | some token => some (scaleMillion token)
    | none =>
      match formattedNumberMatch result.toList with
      | some m => some (String.mk (stripCommas m))
      | none =>
        match plainNumberMatch result.toList with
        | some m => some (String.mk m)
        | none => none

/-- Intermediate results (`Record<string, string>`): an insertion-ordered
association list. -/
def recordGet (r : List (String × String)) (k : String) : Option String :=
  (r.find? fun kv => kv.1 = k).map fun kv => kv.2

/-- JavaScript `trim` (ASCII whitespace suffices for the inputs here). -/
def trimWs (l : List Char) : List Char :=
  ((l.dropWhile isWsChar).reverse.dropWhile isWsChar).reverse

/-- JavaScript `trim` on strings. -/
def trimString (s : String) : String := String.mk (trimWs s.toList)

/-- `/^q\d+$/` on an argument. -/
def isQRef (l : List Char) : Bool :=
  match l with
  | 'q' :: d :: ds => (d :: ds).all Char.isDigit
  | _ => false

/-- The capture group of `/Sum\s*\(\s*([^)]+)\s*\)/`: the text between the
parentheses with the whitespace eaten by the leading `\s*` removed; if the
inner text is pure whitespace, backtracking leaves exactly its last
character to `[^)]+`. -/
def sumGroup (inner : List Char) : Option (List Char) :=
  if inner.isEmpty then none
  else
    let g := inner.dropWhile isWsChar
    if g.isEmpty then some [inner.getLastD ' '] else some g

/-- Anchored attempt of the `Sum( … )` pattern: on success returns the
capture group and the input after the closing parenthesis. -/
def sumSplitAt (s : List Char) : Option (List Char × List Char) :=
  if startsWithL (s.map lcChar) (lit ("sum")) then
    match (s.drop 3).dropWhile isWsChar with
    | '(' :: r2 =>
      let inner := r2.takeWhile fun c => c ≠ ')'
      match r2.dropWhile fun c => c ≠ ')' with
      | ')' :: after =>
        (sumGroup inner).map fun g => (g, after)
      | _ => none
    | _ => none
  else none

/-- First match of the `Sum( … )` pattern anywhere: returns the text before
the match, the capture group, and the text after the match. -/
def sumSplitFrom : List Char → Option (List Char × List Char × List Char)
  | [] => none
  | c :: t =>
    match sumSplitAt (c :: t) with
    | some (g, a) => some ([], g, a)
    | none =>
      match sumSplitFrom t with
      | some (p, g, a) => some (c :: p, g, a)
      | none => none

/-- Split on `,` (raw parts, separators removed). -/
def splitOnCommaRaw : List Char → List (List Char)
  | [] => [[]]
  | c :: t =>
    let rest := splitOnCommaRaw t
    if c = ',' then [] :: rest
    else
      match rest with
      | h :: r => (c :: h) :: r
      | [] => [[c]]

/-- `split(/\s*,\s*/)`: the separator also consumes whitespace adjacent to
each comma, so every part except the first loses leading whitespace and every
part except the last loses trailing whitespace. -/
def splitCommaWs (l : List Char) : List (List Char) :=
  let parts := splitOnCommaRaw l
  let n := parts.length
  parts.enum.map fun p =>
    let a := if p.1 = 0 then p.2 else p.2.dropWhile isWsChar
    if p.1 + 1 = n then a else (a.reverse.dropWhile isWsChar).reverse

/-- Resolution of one `Sum()` argument (source lines 372–388): a `q<n>`
reference is replaced by the extracted numeric value of its intermediate
result when that extraction yields a truthy (non-empty) string, and by the
logged fallback `"0"` otherwise; any other argument is kept as is. -/
def resolveSumArg (ir : List (String × String)) (arg : List Char) : List Char :=
  let t := trimWs arg
  if isQRef t then
    match recordGet ir (String.mk t) with
    | some r =>
      if r ≠ "" then
        match extractNumericValue r with
        | some v => if v ≠ "" then v.toList else ['0']
        | none => ['0']
      else ['0']
    | none => ['0']
  else arg

/-- Does `/\b(q\d+)\b/` match somewhere?  `prev` carries the character before
the current position for the word-boundary test. -/
def hasQRef : Option Char → List Char → Bool
  | _, [] => false
  | prev, c :: t =>
    let boundaryOk := match prev with
      | none => true
      | some p => !isWordChar p
    if c = 'q' && boundaryOk then
      let ds := t.takeWhile Char.isDigit
      let bound2 := match (t.dropWhile Char.isDigit).head? with
        | some r => !isWordChar r
        | none => true
      if !ds.isEmpty && bound2 then true else hasQRef (some c) t
    else hasQRef (some c) t

/-- The replacement text for one matched `q<n>` reference (the replacer
callback of source lines 406–421): the extracted numeric value when the
intermediate result is present (truthy) and the extraction yields a truthy
string, the original reference text otherwise. -/
def qRefValue (ir : List (String × String)) (ds : List Char) : List Char :=
  match recordGet ir (String.mk ('q' :: ds)) with
  | some r =>
    if r ≠ "" then
      match extractNumericValue r with
      | some v => if v ≠ "" then v.toList else 'q' :: ds
      | none => 'q' :: ds
    else 'q' :: ds
  | none => 'q' :: ds

/-- Fueled worker for `qRefReplace` (every recursive call consumes at least
one character, so the fuel supplied by the wrapper never runs out). -/
def qRefReplaceFuel (ir : List (String × String)) : Nat → Option Char → List Char → List Char
  | 0, _, l => l
  | n + 1, prev, l =>
    match l with
    | [] => []
    | c :: t =>
      let boundaryOk := match prev with
        | none => true
        | some p => !isWordChar p
      if c = 'q' && boundaryOk then
        let ds := t.takeWhile Char.isDigit
        let rest := t.dropWhile Char.isDigit
        let bound2 := match rest.head? with
          | some r => !isWordChar r
          | none => true
        if !ds.isEmpty && bound2 then
          qRefValue ir ds ++ qRefReplaceFuel ir n (some (ds.getLastD 'q')) rest
        else c :: qRefReplaceFuel ir n (some c) t
      else c :: qRefReplaceFuel ir n (some c) t

/-- `expression.replace(/\b(q\d+)\b/g, …)` (source lines 406–421): each
matched reference whose intermediate result is present (truthy) and yields a
truthy extracted numeric value is replaced by that value; otherwise the
original reference text is kept. -/
def qRefReplace (ir : List (String × String)) (prev : Option Char) (l : List Char) : List Char :=
  qRefReplaceFuel ir (l.length + 1) prev l

/-- `resolveCalculatorDependencies` worker.  Each `Sum()` rewrite removes one
`Sum` token, so the recursion depth is bounded by the expression length; the
fuel supplied by the wrapper therefore never runs out on real inputs. -/
def resolveCalcAux : Nat → List Char → List (String × String) → List Char
  | 0, e, _ => e
  | n + 1, e, ir =>
    match sumSplitFrom e with
    | some (before, g, after) =>
      let resolvedArgs := (splitCommaWs g).map (resolveSumArg ir)
      let sumExpression := '(' :: (List.intercalate (lit (" + ")) resolvedArgs) ++ [')']
      resolveCalcAux n (before ++ sumExpression ++ after) ir
    | none =>
      if hasQRef none e then qRefReplace ir none e else e

/-- `resolveCalculatorDependencies` (source lines 289–429): rewrite a
`Sum(…)` call to an explicit addition (recursing on the rewritten
expression), then substitute `q<n>` dependency references, leaving a
reference in place when no numeric value can be extracted for it. -/
def resolveCalculatorDependencies (expression : String) (intermediateResults : List (String × String)) : String :=
  String.mk (resolveCalcAux (expression.length + 1) expression.toList intermediateResults)

/-- Fueled worker for `collapseAfterParen`. -/
def collapseAfterParenFuel : Nat → List Char → List Char
  | 0, l => l
  | n + 1, l =>
    match l with
    | [] => []
    | '(' :: t => '(' :: collapseAfterParenFuel n (t.dropWhile isWsChar)
    | c :: t => c :: collapseAfterParenFuel n t

/-- `replace(/\(\s+/g, '(')`: every whitespace run directly after an opening
parenthesis is removed (when no whitespace follows, the `dropWhile` is the
identity, matching the regex finding no match there; the fuel never runs out
since every step consumes at least one character). -/
def collapseAfterParen (l : List Char) : List Char :=
  collapseAfterParenFuel (l.length + 1) l

/-- `replace(/\s+\)/g, ')')`: a whitespace character is deleted exactly when
the rest of its whitespace run is directly followed by a closing
parenthesis. -/
def collapseWsParen : List Char → List Char
  | [] => []
  | c :: t =>
    if isWsChar c && (match t.dropWhile isWsChar with | ')' :: _ => true | _ => false) then
      collapseWsParen t
    else c :: collapseWsParen t

/-- Fueled worker for `spaceOps`. -/
def spaceOpsFuel : Nat → List Char → List Char
  | 0, l => l
  | n + 1, l =>
    match l with
    | a :: b :: c :: t =>
      if a.isDigit && (b = '+' || b = '-' || b = '*' || b = '/') && c.isDigit then
        a :: ' ' :: b :: ' ' :: c :: spaceOpsFuel n t
      else a :: spaceOpsFuel n (b :: c :: t)
    | l2 => l2

/-- `replace(/(\d)([+\-*/])(\d)/g, '$1 $2 $3')` (left-to-right,
non-overlapping, continuing after each match; the fuel never runs out since
every step consumes at least one character). -/
def spaceOps (l : List Char) : List Char := spaceOpsFuel (l.length + 1) l

/-- Fueled worker for `joinNums` (every recursive call consumes at least one
character, so the fuel supplied by the wrapper never runs out). -/
def joinNumsFuel : Nat → List Char → List Char
  | 0, l => l
  | n + 1, l =>
    match l with
    | [] => []
    | c :: t =>
      if c.isDigit then
        let r1 := (c :: t).takeWhile Char.isDigit
        let rest1 := (c :: t).dropWhile Char.isDigit
        match rest1 with
        | w :: _ =>
          if isWsChar w then
            let rest2 := rest1.dropWhile isWsChar
            match rest2 with
            | d :: _ =>
              if d.isDigit then
                r1 ++ lit (" + ") ++ rest2.takeWhile Char.isDigit ++
                  joinNumsFuel n (rest2.dropWhile Char.isDigit)
              else r1 ++ joinNumsFuel n rest1
            | [] => r1 ++ rest1
          else r1 ++ joinNumsFuel n rest1
        | [] => r1
      else c :: joinNumsFuel n t

/-- `replace(/(\d+)\s+(\d+)/g, '$1 + $2')` (join adjacent numeric tokens
with a plus, continuing after each match). -/
def joinNums (l : List Char) : List Char := joinNumsFuel (l.length + 1) l

/-- Characters kept by `replace(/[^0-9+\-*/().\s]/g, '')`. -/
def sanitizeKeepChar (c : Char) : Bool :=
  c.isDigit || c = '+' || c = '-' || c = '*' || c = '/' || c = '(' ||
  c = ')' || c = '.' || isWsChar c

/-- The calculator node's expression sanitization (source lines 541–557):
collapse whitespace inside parentheses, space out digit-operator-digit
triples, join adjacent numeric tokens with `+`, then delete every character
outside `[0-9+\-*/().\s]`. -/
def sanitizeExpression (expression : String) : String :=
  String.mk
    ((joinNums (spaceOps (collapseWsParen (collapseAfterParen expression.toList)))).filter
      sanitizeKeepChar)

/-- The guard `if (!sanitizedExpression || sanitizedExpression.trim() === '')`
that makes the calculator node raise a tool error for an unusable sanitized
expression (source lines 559–561). -/
def sanitizedExpressionRejected (e : String) : Bool :=
  e = "" || trimString e = ""

/-! The data model of the graph state (source lines 10–36).  `chatHistory`
is omitted: no modelled node reads or writes it.  `toolOutput` is modelled as
an optional string: every node embedded here stores strings, so the
collector's defensive `JSON.stringify` arm for non-string outputs is never
exercised. -/

structure SubQuestion where
  id : String
  question : String
  toolType : String
  dependsOn : List String
  completed : Bool
  result : Option String
deriving DecidableEq, Repr

structure ToolSelectionState where
  query : String
  selectedTool : Option String
  analysis : String
  toolOutput : Option String
  finalResponse : Option String
  serpApiQuery : String
  requiresDecomposition : Bool
  isMultishot : Bool
  subQuestions : List SubQuestion
  currentSubQuestion : Option SubQuestion
  intermediateResults : List (String × String)
  processingComplete : Bool
deriving DecidableEq, Repr

/-- The initial state built by the invoke wrapper (source lines 1695–1711). -/
def initialState (query serpApiQuery : String) : ToolSelectionState :=
  { query := query
    selectedTool := none
    analysis := ""
    toolOutput := none
    finalResponse := none
    serpApiQuery := serpApiQuery
    requiresDecomposition := false
    isMultishot := false
    subQuestions := []
    currentSubQuestion := none
    intermediateResults := []
    processingComplete := false }

def multishotAnalysisText : String := "This query appears to require multiple tools in sequence."

def calculatorAnalysisText : String := "This query appears to require mathematical calculation."

def serpAnalysisText : String := "This query appears to require a web search for current information."

/-- `queryAnalysisNode` of the multishot graph (source lines 175–286).  The
language-model analyzer is passed as an `Except`-valued outcome; note the
source wraps the `analyzerChain.invoke` call in no `try`, so a model error
escapes the node, which the embedding renders as `Except.error`. -/
def queryAnalysisNode (serpAvailable : Bool) (analyzerOutcome : Except String String)
    (state : ToolSelectionState) : Except String ToolSelectionState :=
  let mightBeMultishot := multishotMatch state.query
  if mightBeMultishot && serpAvailable then
    .ok { state with requiresDecomposition := true, analysis := multishotAnalysisText }
  else if calculatorMatch state.query then
    .ok { state with selectedTool := some ("calculator"), analysis := calculatorAnalysisText,
                     requiresDecomposition := false }
  else if serpAvailable && decide (state.query ≠ "") && decide (trimString state.query ≠ "") &&
      serpApiMatch state.query then
    .ok { state with selectedTool := some ("serpapi"), analysis := serpAnalysisText,
                     requiresDecomposition := false }
  else
    match analyzerOutcome with
    | .error e => .error e
    | .ok analysis =>
      if containsL (lc analysis) (lit ("multishot")) then
        .ok { state with requiresDecomposition := true, analysis := analysis }
      else if containsL (lc analysis) (lit ("calculator")) then
        .ok { state with selectedTool := some ("calculator"), analysis := analysis,
                         requiresDecomposition := false }
      else if containsL (lc analysis) (lit ("serpapi")) && serpAvailable then
        .ok { state with selectedTool := some ("serpapi"), analysis := analysis,
                         requiresDecomposition := false }
      else
        .ok { state with selectedTool := some ("rag"), analysis := analysis,
                         requiresDecomposition := false }

/-- `queryAnalysisNode` of the earlier single-tool graph
(`src/app/langchain/graphs/tool_selection_graph.ts`, lines 66–145): identical
calculator-before-search pattern order, without the multishot check. -/
def queryAnalysisNodeTS (serpAvailable : Bool) (analyzerOutcome : Except String String)
    (state : ToolSelectionState) : Except String ToolSelectionState :=
  if calculatorMatch state.query then
    .ok { state with selectedTool := some ("calculator"), analysis := calculatorAnalysisText }
  else if serpAvailable && serpApiMatch state.query then
    .ok { state with selectedTool := some ("serpapi"), analysis := serpAnalysisText }
  else
    match analyzerOutcome with
    | .error e => .error e
    | .ok analysis =>
      if containsL (lc analysis) (lit ("calculator")) then
        .ok { state with selectedTool := some ("calculator"), analysis := analysis }
      else if containsL (lc analysis) (lit ("serpapi")) && serpAvailable then
        .ok { state with selectedTool := some ("serpapi"), analysis := analysis }
      else
        .ok { state with selectedTool := some ("rag"), analysis := analysis }

/-- The `catch` branch of `serpApiNode` (source lines 794–805): select the
RAG fallback in state and record the error text, leaving `finalResponse`
untouched. -/
def serpCatchState (e : String) (state : ToolSelectionState) : ToolSelectionState :=
  { state with selectedTool := some ("rag"),
               toolOutput := some ("Error using SerpAPI: " ++ e),
               analysis := "Attempted to use SerpAPI but failed: " ++ e }

/-- `serpApiNode` (source lines 631–805), for adapters that return strings or
throw.  `queryExtract` is the model call that builds the search query (used
only when no hardcoded `serpApiQuery` is present), `searchInvoke` the search
adapter call, `formatInvoke` the model call that words the answer (its
failure is caught locally and produces the inline fallback text, source lines
779–783).  Structured (non-string) search payloads and their defensive
serialization are not exercised by any claim and are not modelled: the
adapter outcome is already text. -/
def serpApiNode (serpAvailable : Bool) (queryExtract searchInvoke formatInvoke : Except String String)
    (state : ToolSelectionState) : ToolSelectionState :=
  if !serpAvailable then
    { state with selectedTool := some ("rag"),
                 analysis := "SerpAPI tool is not available. Falling back to RAG." }
  else
    let searchQuery : Except String String :=
      if trimString state.serpApiQuery ≠ "" then .ok state.serpApiQuery else queryExtract
    match searchQuery with
    | .error e => serpCatchState e state
    | .ok _ =>
      match searchInvoke with
      | .error e => serpCatchState e state
      | .ok searchResult =>
        let safeSearchResult := searchResult
        let extractedInfo := searchResult
        let extractedInfo :=
          if extractedInfo.length > 3000 then
            extractedInfo.take 1000 ++ "\n\n...[Content truncated for brevity]...\n\n" ++
              extractedInfo.drop (extractedInfo.length - 1000)
          else extractedInfo
        let formattedResponse :=
          match formatInvoke with
          | .ok r => r
          | .error _ =>
            "I found some information about \"" ++ state.query ++
              "\", but I'm having trouble formatting it into a helpful response. Here's what I found:\n\n" ++
              extractedInfo.take 300 ++ "..."
        { state with toolOutput := some safeSearchResult, finalResponse := some formattedResponse }

/-- Count of completed sub-questions. -/
def countCompleted (sqs : List SubQuestion) : Nat :=
  (sqs.filter fun sq => sq.completed).length

/-- The eligibility search shared by `decompositionNode` and
`resultsCollectorNode` (source lines 1140–1145 and 1311–1316): the first
sub-question that is not completed and whose dependencies all resolve to
completed sub-questions. -/
def findNextSubQuestion (sqs : List SubQuestion) : Option SubQuestion :=
  sqs.find? fun sq =>
    !sq.completed &&
      (sq.dependsOn.isEmpty ||
        sq.dependsOn.all fun dep =>
          match sqs.find? fun q => q.id == dep with
          | some depQuestion => depQuestion.completed
          | none => false)

/-- `resultToStore` of the results collector (source lines 1235–1257): the
tool output, normalized to a string (the embedded nodes always store
strings, so the defensive `JSON.stringify` arm is not exercised). -/
def collectResultToStore (state : ToolSelectionState) : String :=
  match state.toolOutput with
  | some s => s
  | none => "No result available"

/-- `updatedSubQuestions` of the results collector (source lines 1283–1287):
the current sub-question is marked completed and carries the stored
result. -/
def collectMark (state : ToolSelectionState) (cur : SubQuestion) : List SubQuestion :=
  state.subQuestions.map fun sq =>
    if sq.id = cur.id then
      { sq with completed := true, result := some (collectResultToStore state) }
    else sq

/-- `updatedResults` of the results collector (source lines 1277–1280):
store the result under the current sub-question's id (overwrite in place, or
append). -/
def collectStore (state : ToolSelectionState) (cur : SubQuestion) : List (String × String) :=
  match recordGet state.intermediateResults cur.id with
  | some _ => state.intermediateResults.map fun kv =>
      if kv.1 = cur.id then (kv.1, collectResultToStore state) else kv
  | none => state.intermediateResults ++ [(cur.id, collectResultToStore state)]

/-- The `allCompleted || forceTermination` test of the results collector
(source lines 1290–1298): every sub-question completed, or the emergency
valve `completedCount > 0 && completedCount >= floor(totalCount / 2)`. -/
def collectDone (upd : List SubQuestion) : Prop :=
  upd.all (fun sq => sq.completed) = true ∨
    (0 < countCompleted upd ∧ upd.length / 2 ≤ countCompleted upd)

instance (upd : List SubQuestion) : Decidable (collectDone upd) := by
  unfold collectDone
  infer_instance

/-- `resultsCollectorNode` (source lines 1224–1334): store the tool output
under the current sub-question's id, mark it completed, then either finish
(`collectDone`) or hand over the next eligible sub-question, finishing as
well when none exists. -/
def resultsCollectorNode (state : ToolSelectionState) : ToolSelectionState :=
  match state.currentSubQuestion with
  | none => { state with processingComplete := true }
  | some cur =>
    let updatedSubQuestions := collectMark state cur
    if collectDone updatedSubQuestions then
      { state with subQuestions := updatedSubQuestions,
                   intermediateResults := collectStore state cur,
                   processingComplete := true,
                   currentSubQuestion := none }
    else
      { state with subQuestions := updatedSubQuestions,
                   currentSubQuestion := findNextSubQuestion updatedSubQuestions,
                   intermediateResults := collectStore state cur,
                   processingComplete := (findNextSubQuestion updatedSubQuestions).isNone }

/-- Conditional edge after `analyzeQuery` (source lines 1547–1560). -/
def analyzeRoute (state : ToolSelectionState) : String :=
  if state.requiresDecomposition then ("decompose") else ("singleTool")

/-- Conditional edge after `routeToTool` (source lines 1563–1573);
`routeToTool` itself is a pass-through node. -/
def toolRoute (state : ToolSelectionState) : String :=
  state.selectedTool.getD ("rag")

/-- Conditional edge after `routeSubQuestion` (source lines 1579–1593). -/
def routeSubQuestionRoute (state : ToolSelectionState) : String :=
  match state.currentSubQuestion with
  | none => "end"
  | some sq => sq.toolType

/-- Conditional edge after each tool-execution node (source lines
1597–1634): `multishot` loops into `collectResults`, `singleTool` goes to
`END`. -/
def afterToolRoute (state : ToolSelectionState) : String :=
  if state.isMultishot then ("multishot") else ("singleTool")

/-- Conditional edge after `collectResults` (source lines 1637–1652):
`complete` to `aggregateResults` when more than 20 sub-questions are
completed (emergency cycle detection) or `processingComplete` holds,
`continue` back to `routeSubQuestion` otherwise. -/
def collectRoute (state : ToolSelectionState) : String :=
  if (state.subQuestions.filter fun sq => sq.completed).length > 20 then ("complete")
  else if state.processingComplete then ("complete")
  else ("continue")

/-- The validation filter applied to strictly parsed sub-questions (source
lines 1032–1041): the three text fields must be truthy and the tool type one
of the two known tools (`dependsOn` is an array by construction here). -/
def validSubQuestion (sq : SubQuestion) : Bool :=
  decide (sq.id ≠ "") && decide (sq.question ≠ "") && decide (sq.toolType ≠ "") &&
    (sq.toolType == "serpapi" || sq.toolType == "calculator")

/-- The city alternation of `createDefaultDecomposition`'s `cityPattern`
(source line 851), in source order. -/
def cityNames : List String :=
  ["new york","los angeles","chicago","houston","phoenix","philadelphia",
   "san antonio","san diego","dallas","san jose","austin","jacksonville",
   "fort worth","columbus","indianapolis","charlotte","san francisco",
   "seattle","denver","washington","boston","nashville"]

/-- `query.match(cityPattern)` with the `/gi` flags on the lower-cased query:
scan left to right, at each position try the alternatives in source order,
and continue after a match. -/
def cityScanFuel : Nat → List Char → List String
  | 0, _ => []
  | n + 1, s =>
    match s with
    | [] => []
    | c :: t =>
      match cityNames.find? fun city => startsWithL (c :: t) (lit city) with
      | some city => city :: cityScanFuel n ((c :: t).drop city.length)
      | none => cityScanFuel n t

/-- All city matches in the query (already lower-case, as the source maps
each match through `toLowerCase`). -/
def cityScan (s : List Char) : List String := cityScanFuel (s.length + 1) s

/-- `[...new Set(arr)]`: deduplicate keeping first occurrences. -/
def dedupeStr (l : List String) : List String :=
  (l.foldl (fun acc x => if acc.contains x then acc else x :: acc) []).reverse

/-- `query.match(/\d+(\.\d+)?/g)`: every maximal number token. -/
def numberScanFuel : Nat → List Char → List String
  | 0, _ => []
  | n + 1, s =>
    match s with
    | [] => []
    | c :: t =>
      if c.isDigit then
        let run := (c :: t).takeWhile Char.isDigit
        let rest := (c :: t).dropWhile Char.isDigit
        let tok := match rest with
          | '.' :: d :: _ =>
            if d.isDigit then run ++ '.' :: ((rest.drop 1).takeWhile Char.isDigit)
            else run
          | _ => run
        String.mk tok :: numberScanFuel n ((c :: t).drop tok.length)
      else numberScanFuel n t

def numberScan (q : String) : List String := numberScanFuel (q.length + 1) q.toList

/-- The gate of `createDefaultDecomposition` (source line 849):
`/population.*multiply|multiply.*population|population.*times|times.*population/i`. -/
def defaultDecompGate (query : String) : Bool :=
  let s := lc query
  seqMatch s [alts ["population"], alts ["multiply"]] ||
  seqMatch s [alts ["multiply"], alts ["population"]] ||
  seqMatch s [alts ["population"], alts ["times"]] ||
  seqMatch s [alts ["times"], alts ["population"]]

/-- The `cities.forEach((city, index) => subQuestions.push(…))` loop of
`createDefaultDecomposition` (source lines 866–875): one search sub-question
per city, numbered from `index + 1`. -/
def mkCityQuestions : Nat → List String → List SubQuestion
  | _, [] => []
  | i, city :: rest =>
    { id := "q" ++ toString (i + 1)
      question := "What is the current population of " ++ city ++ "?"
      toolType := "serpapi"
      dependsOn := []
      completed := false
      result := none } :: mkCityQuestions (i + 1) rest

/-- `createDefaultDecomposition` (source lines 845–934): on the population
gate, one search sub-question per detected city, an addition step depending
on all of them when there are at least two, and a final multiplication step
for the first detected number; otherwise the generic two-step search-then-
calculate decomposition. -/
def createDefaultDecomposition (query : String) : List SubQuestion :=
  if defaultDecompGate query then
    let cities := dedupeStr (cityScan (lc query))
    let numbers :=
      let ns := numberScan query
      if ns.isEmpty then ["0.05"] else ns
    let cityQs := mkCityQuestions 0 cities
    if cities.length > 1 then
      let base := cityQs ++
        [{ id := "q" ++ toString (cities.length + 1)
           question := "Add the populations of " ++ String.intercalate (" and ") cities
           toolType := "calculator"
           dependsOn := cityQs.map fun sq => sq.id
           completed := false
           result := none }]
      if 0 < numbers.length then
        base ++
          [{ id := "q" ++ toString (cities.length + 2)
             question := "Multiply the combined population by " ++ numbers.headD ("")
             toolType := "calculator"
             dependsOn := ["q" ++ toString (cities.length + 1)]
             completed := false
             result := none }]
      else base
    else if cities.length = 1 ∧ 0 < numbers.length then
      cityQs ++
        [{ id := "q" ++ toString (cities.length + 1)
           question := "Multiply the population of " ++ cities.headD ("") ++ " by " ++ numbers.headD ("")
           toolType := "calculator"
           dependsOn := ["q1"]
           completed := false
           result := none }]
    else cityQs
  else
    [{ id := "q1"
       question := "Search for information related to: " ++ query
       toolType := "serpapi"
       dependsOn := []
       completed := false
       result := none },
     { id := "q2"
       question := "Perform any necessary calculations on the retrieved information"
       toolType := "calculator"
       dependsOn := ["q1"]
       completed := false
       result := none }]

/-- The model-timeout branch of `decompositionNode` (source lines 992–1009):
the default decomposition replaces the model output, and the first
sub-question whose `dependsOn` is empty becomes current (no entry fix-up
runs on this path). -/
def decompositionTimeoutState (state : ToolSelectionState) : ToolSelectionState :=
  let defaultSubQuestions := createDefaultDecomposition state.query
  let nextSubQuestion := defaultSubQuestions.find? fun sq => sq.dependsOn.isEmpty
  { state with isMultishot := true
               subQuestions := defaultSubQuestions
               currentSubQuestion := nextSubQuestion
               intermediateResults := []
               processingComplete := false }

/-- The tail of `decompositionNode`'s main path (source lines 1139–1162):
find an entry-eligible sub-question; when none exists and the list is
non-empty, clear the first sub-question's dependencies and start there. -/
def decompFinalize (state : ToolSelectionState) (subQuestions : List SubQuestion) : ToolSelectionState :=
  match findNextSubQuestion subQuestions with
  | some nextSubQuestion =>
    { state with isMultishot := true
                 subQuestions := subQuestions
                 currentSubQuestion := some nextSubQuestion
                 intermediateResults := []
                 processingComplete := false }
  | none =>
    match subQuestions with
    | [] =>
      { state with isMultishot := true
                   subQuestions := []
                   currentSubQuestion := none
                   intermediateResults := []
                   processingComplete := false }
    | first :: rest =>
      let first2 := { first with dependsOn := ([] : List String) }
      { state with isMultishot := true
                   subQuestions := first2 :: rest
                   currentSubQuestion := some first2
                   intermediateResults := []
                   processingComplete := false }

/-- The emergency fallback decomposition of `decompositionNode`'s outer
`catch` (source lines 1168–1198). -/
def emergencyDecomposition (query : String) : List SubQuestion :=
  let base := [{ id := "q1"
                 question := query
                 toolType := "serpapi"
                 dependsOn := ([] : List String)
                 completed := false
                 result := (none : Option String) }]
  if containsAny (lc query)
      (alts ["calculate","compute","multiply","divide","add","subtract","sum","percent"]) then
    base ++ [{ id := "q2"
               question := "Perform calculation based on information from previous step"
               toolType := "calculator"
               dependsOn := ["q1"]
               completed := false
               result := none }]
  else base

/-- The deterministic fallback of `aggregationNode`'s `catch` (source lines
1506–1511); `||` chains follow JavaScript truthiness (an empty string falls
through). -/
def firstTruthyResult (sq : SubQuestion) (ir : List (String × String)) : String :=
  let fromMap := match recordGet ir sq.id with
    | some r2 => if r2 ≠ "" then r2 else ("No result")
    | none => "No result"
  match sq.result with
  | some r => if r ≠ "" then r else fromMap
  | none => fromMap

def aggregationFallbackResponse (state : ToolSelectionState) : String :=
  "I found answers to parts of your question, but had trouble putting them all together. Here's what I found:\n\n" ++
    String.intercalate ("\n\n") (state.subQuestions.map fun sq =>
      "For \"" ++ sq.question ++ "\": " ++ firstTruthyResult sq state.intermediateResults)

/-- What the invoke wrapper hands back to its caller (source lines
1916–1922). -/
structure RunResult where
  response : String
  toolUsed : Option String
  analysis : String
  isMultishot : Bool
deriving DecidableEq, Repr

def noResponseFallback : String := "I couldn't process your request. Please try again."

/-- The wrapper's return for a non-multishot final state (source lines
1836–1922; the emergency manual aggregation block in between is guarded by
`result.isMultishot` and is skipped for these states).  JavaScript
truthiness again: an empty `finalResponse` falls through to the canned
text. -/
def wrapResponseSingle (result : ToolSelectionState) : RunResult :=
  { response :=
      match result.finalResponse with
      | some r => if r ≠ "" then r else noResponseFallback
      | none => noResponseFallback
    toolUsed := if result.isMultishot then some ("multishot") else result.selectedTool
    analysis := result.analysis
    isMultishot := result.isMultishot }

def GLOBAL_TIMEOUT_MS : Nat := 60000

/-- The message of the timer's rejection in the global `Promise.race`
(source line 1824). -/
def globalTimeoutErrorMessage : String :=
  "Global workflow timeout after " ++ toString GLOBAL_TIMEOUT_MS ++ "ms"

/-- The outer `catch` of the invoke wrapper (source lines 1923–1932): a
fixed error response built only from the error message — independent of any
partial sub-question state. -/
def outerCatchResult (errMessage : String) : RunResult :=
  { response := "I encountered an issue while processing your request: " ++ errMessage ++
      ". If you were asking about combined populations or other multi-step calculations, please try phrasing your question more directly."
    toolUsed := some ("error")
    analysis := "Workflow error: Error: " ++ errMessage
    isMultishot := false }

/-- Outcome of `Promise.race([executeSafely(), timeoutPromise])` (source
lines 1820–1826): either the chain settles first with a final state, or the
timer fires first, whose rejection lands in the outer `catch`. -/
inductive RaceOutcome where
  | chainFirst (finalState : ToolSelectionState)
  | timerFirst

/-- The wrapper's result as a function of the race outcome. -/
def invokeRaceResult : RaceOutcome → RunResult
  | .chainFirst s => wrapResponseSingle s
  | .timerFirst => outerCatchResult globalTimeoutErrorMessage

/-- The single-tool fragment of the compiled graph, walked edge by edge: the
analysis node, the `analyzeQuery` conditional edge, the pass-through
`routeToTool` node with its conditional edge, the serpapi execution node, and
the tool-exit conditional edge into the wrapper.  Branches that leave this
fragment (decomposition, calculator, RAG) are flagged with an explicit
`Except.error` marker rather than being approximated. -/
def runSingleToolSerp (serpAvailable : Bool)
    (analyzerOutcome queryExtract searchInvoke formatInvoke : Except String String)
    (query serpQ : String) : Except String RunResult :=
  match queryAnalysisNode serpAvailable analyzerOutcome (initialState query serpQ) with
  | .error e => .error e
  | .ok s1 =>
    if analyzeRoute s1 = "decompose" then .error ("outside fragment: decomposition path")
    else if toolRoute s1 = "serpapi" then
      let s2 := serpApiNode serpAvailable queryExtract searchInvoke formatInvoke s1
      if afterToolRoute s2 = "multishot" then .error ("outside fragment: multishot loop")
      else .ok (wrapResponseSingle s2)
    else .error ("outside fragment: calculator or rag execution")

/-! Concrete inputs used by the individual claim theorems. -/

/-- The query of spec Scenario B, verbatim. -/
def scenarioBQuery : String :=
  "population of Chicago plus population of Houston, multiplied by 0.05"

/-- The Scenario-B query with `multiplied by` replaced by `times` (a wording
the template gate does recognize). -/
def scenarioBTimesQuery : String :=
  "population of Chicago plus population of Houston, times 0.05"

/-- A query matching the template gate (`population … times`) that contains
none of the hard-coded city names. -/
def parisQuery : String := "population of paris times 2"

/-- The entry sub-question of the deadlocked decomposition below. -/
def deadlockQ1 : SubQuestion :=
  { id := "q1", question := "population of city a", toolType := "serpapi",
    dependsOn := [], completed := false, result := none }

/-- A decomposition whose dependency graph deadlocks after the first
sub-question: `q2` and `q3` depend on each other and `q4` depends on `q2`.
Each entry passes the strict-parse validation filter. -/
def deadlockSubQuestions : List SubQuestion :=
  [deadlockQ1,
   { id := "q2", question := "add the values", toolType := "calculator",
     dependsOn := ["q3"], completed := false, result := none },
   { id := "q3", question := "scale the sum", toolType := "calculator",
     dependsOn := ["q2"], completed := false, result := none },
   { id := "q4", question := "report the result", toolType := "calculator",
     dependsOn := ["q2"], completed := false, result := none }]

/-- The collector's input state while `q1` of the deadlocked decomposition is
being collected. -/
def c1DeadlockState : ToolSelectionState :=
  { (initialState ("population of city a plus city b times 2") "") with
    isMultishot := true
    subQuestions := deadlockSubQuestions
    currentSubQuestion := some deadlockQ1
    toolOutput := some ("about 2.7 million") }

/-- A two-question decomposition in which the second sub-question depends on
the first (the shape of Scenario D and of the generic template fallback). -/
def twoStepSubQuestions : List SubQuestion :=
  [{ id := "q1", question := "Search for information related to: x", toolType := "serpapi",
     dependsOn := [], completed := false, result := none },
   { id := "q2", question := "Perform any necessary calculations on the retrieved information",
     toolType := "calculator", dependsOn := ["q1"], completed := false, result := none }]

/-- A partial multishot state holding one gathered search result; used to
show what the Aggregate fallback would report and the timeout path does
not. -/
def c6PartialState : ToolSelectionState :=
  { (initialState ("population of chicago times 0.05") "") with
    isMultishot := true
    subQuestions := [{ id := "q1", question := "What is the current population of chicago?",
                       toolType := "serpapi", dependsOn := [], completed := true,
                       result := some ("4600000") },
                     { id := "q2", question := "Multiply the population of chicago by 0.05",
                       toolType := "calculator", dependsOn := ["q1"], completed := false,
                       result := none }]
    intermediateResults := [("q1", "4600000")] }

/-- A decomposition with no entry-eligible sub-question (a two-cycle),
exercising the validation fix-up of the decomposition node's main path. -/
def noEntrySubQuestions : List SubQuestion :=
  [{ id := "q1", question := "first of a cycle", toolType := "serpapi",
     dependsOn := ["q2"], completed := false, result := none },
   { id := "q2", question := "second of a cycle", toolType := "calculator",
     dependsOn := ["q1"], completed := false, result := none }]

/-- A bare decimal numeral in the sense of the spec's idempotence property: a
non-empty digit run, optionally followed by a dot and a non-empty digit
run. -/
def isBareNumeral (s : String) : Bool :=
  let l := s.toList
  let int := l.takeWhile Char.isDigit
  let rest := l.dropWhile Char.isDigit
  !int.isEmpty &&
    (rest.isEmpty ||
      (decide (rest.head? = some '.') && !(rest.drop 1).isEmpty &&
        (rest.drop 1).all Char.isDigit))

/-- Equality of `Except` values is decidable (needed to state evaluation
theorems about node results by `decide`). -/
instance {α β : Type} [DecidableEq α] [DecidableEq β] : DecidableEq (Except α β)
  | .error a, .error b => decidable_of_iff (a = b) (by simp)
  | .error _, .ok _ => isFalse (by simp)
  | .ok _, .error _ => isFalse (by simp)
  | .ok a, .ok b => decidable_of_iff (a = b) (by simp)

/-! ## Helper lemmas -/

theorem countCompleted_cons (a : SubQuestion) (t : List SubQuestion) :
    countCompleted (a :: t) = (if a.completed then 1 else 0) + countCompleted t := by
  by_cases h : a.completed
  · simp [countCompleted, List.filter_cons, h]
    omega
  · simp [countCompleted, List.filter_cons, h]

/-- Marking sub-questions completed never lowers the completed count. -/
theorem countCompleted_mark_mono (l : List SubQuestion) (cid r : String) :
    countCompleted l ≤
      countCompleted (l.map fun sq =>
        if sq.id = cid then { sq with completed := true, result := some r } else sq) := by
  induction l with
  | nil => simp [countCompleted]
  | cons a t ih =>
    rw [List.map_cons, countCompleted_cons, countCompleted_cons]
    have : (if a.completed then 1 else 0) ≤
        (if (if a.id = cid then { a with completed := true, result := some r } else a).completed
         then 1 else 0) := by
      by_cases h1 : a.id = cid <;> by_cases h2 : a.completed <;> simp [h1, h2]
    omega

/-- Marking a present, not-yet-completed sub-question strictly raises the
completed count. -/
theorem countCompleted_mark_succ (l : List SubQuestion) (cid r : String)
    (h : ∃ sq, sq ∈ l ∧ sq.id = cid ∧ sq.completed = false) :
    countCompleted l + 1 ≤
      countCompleted (l.map fun sq =>
        if sq.id = cid then { sq with completed := true, result := some r } else sq) := by
  induction l with
  | nil => simp at h
  | cons a t ih =>
    obtain ⟨sq, hmem, hid, hcomp⟩ := h
    rw [List.map_cons, countCompleted_cons, countCompleted_cons]
    rcases List.mem_cons.mp hmem with heq | hmem'
    · subst heq
      have hmono := countCompleted_mark_mono t cid r
      simp [hid, hcomp]
      omega
    · have hrec := ih ⟨sq, hmem', hid, hcomp⟩
      have : (if a.completed then 1 else 0) ≤
          (if (if a.id = cid then { a with completed := true, result := some r } else a).completed
           then 1 else 0) := by
        by_cases h1 : a.id = cid <;> by_cases h2 : a.completed <;> simp [h1, h2]
      omega

/-- The `collectResults` edge routes to `aggregateResults` only past the
absolute 20-step ceiling or with `processingComplete` set. -/
theorem collectRoute_complete (s : ToolSelectionState)
    (h : collectRoute s = "complete") :
    20 < countCompleted s.subQuestions ∨ s.processingComplete = true := by
  by_cases h20 : (s.subQuestions.filter fun sq => sq.completed).length > 20
  · exact Or.inl h20
  · by_cases hpc : s.processingComplete = true
    · exact Or.inr hpc
    · exfalso
      rw [collectRoute, if_neg h20, if_neg (by simpa using hpc)] at h
      simp at h

/-- When no intermediate result yields a usable (truthy) numeric value, the
replacement for a matched reference is the reference itself. -/
theorem qRefValue_unresolved (ir : List (String × String)) (ds : List Char)
    (h : ∀ k r, recordGet ir k = some r →
      extractNumericValue r = none ∨ extractNumericValue r = some "" ∨ r = "") :
    qRefValue ir ds = 'q' :: ds := by
  unfold qRefValue
  cases hrg : recordGet ir (String.mk ('q' :: ds)) with
  | none => rfl
  | some r =>
    by_cases hr0 : r = ""
    · simp [hr0]
    · rcases h _ _ hrg with hne | hse | hre
      · simp [hr0, hne]
      · simp [hr0, hse]
      · exact absurd hre hr0

/-- When no intermediate result yields a usable numeric value, the reference
substitution pass is the identity: every dependency reference is left
unresolved in place. -/
theorem qRefReplaceFuel_unresolved (ir : List (String × String))
    (h : ∀ k r, recordGet ir k = some r →
      extractNumericValue r = none ∨ extractNumericValue r = some "" ∨ r = "") :
    ∀ (n : Nat) (prev : Option Char) (l : List Char), qRefReplaceFuel ir n prev l = l := by
  intro n
  induction n with
  | zero => intro prev l; rfl
  | succ m ih =>
    intro prev l
    cases l with
    | nil => rfl
    | cons c t =>
      rw [qRefReplaceFuel.eq_def]
      dsimp only
      split
      · split
        · rw [qRefValue_unresolved ir _ h, ih]
          rename_i hb _
          rw [Bool.and_eq_true] at hb
          have hc : c = 'q' := of_decide_eq_true hb.1
          subst hc
          rw [List.cons_append, List.takeWhile_append_dropWhile]
        · rw [ih]
      · rw [ih]

/-- The `numbers` fallback of the template decomposition is never empty
(`["0.05"]` is substituted when the scan finds nothing). -/
theorem numbersDefault_pos (q : String) :
    0 < (if (numberScan q).isEmpty then [("0.05" : String)] else numberScan q).length := by
  by_cases h : (numberScan q).isEmpty
  · rw [if_pos h]; simp
  · rw [if_neg h]
    cases hnil : numberScan q with
    | nil => exact absurd (by simp [hnil]) h
    | cons a t => simp [hnil]

/-- Every template decomposition is either empty or starts with a
sub-question that has no dependencies. -/
theorem createDefaultDecomposition_shape (q : String) :
    createDefaultDecomposition q = [] ∨
    ∃ sq rest, createDefaultDecomposition q = sq :: rest ∧ sq.dependsOn = [] := by
  unfold createDefaultDecomposition
  by_cases hg : defaultDecompGate q = true
  · rw [if_pos hg]
    dsimp only
    cases hcit : dedupeStr (cityScan (lc q)) with
    | nil =>
      left
      simp [mkCityQuestions]
    | cons c cs =>
      right
      by_cases hlen : (c :: cs).length > 1
      · rw [if_pos hlen]
        by_cases hnum : 0 < (if (numberScan q).isEmpty then [("0.05" : String)] else numberScan q).length
        · rw [if_pos hnum]
          simp only [mkCityQuestions, List.cons_append]
          exact ⟨_, _, rfl, rfl⟩
        · rw [if_neg hnum]
          simp only [mkCityQuestions, List.cons_append]
          exact ⟨_, _, rfl, rfl⟩
      · rw [if_neg hlen]
        by_cases h1 : (c :: cs).length = 1 ∧
            0 < (if (numberScan q).isEmpty then [("0.05" : String)] else numberScan q).length
        · rw [if_pos h1]
          simp only [mkCityQuestions, List.cons_append]
          exact ⟨_, _, rfl, rfl⟩
        · rw [if_neg h1]
          simp only [mkCityQuestions]
          exact ⟨_, _, rfl, rfl⟩
  · rw [if_neg hg]
    exact Or.inr ⟨_, _, rfl, rfl⟩

/-! Helper lemmas for the numeric-extraction analysis of claim C9. -/

/-- `takeWhile` passes over a prefix on which the predicate always holds. -/
theorem takeWhile_app_of_all {α : Type} (p : α → Bool) (a b : List α)
    (ha : ∀ x ∈ a, p x = true) :
    (a ++ b).takeWhile p = a ++ b.takeWhile p := by
  induction a with
  | nil => rfl
  | cons x a2 ih =>
    rw [List.cons_append, List.takeWhile_cons_of_pos (ha x (List.mem_cons_self x a2)),
      ih fun y hy => ha y (List.mem_cons_of_mem x hy), List.cons_append]

/-- `dropWhile` removes a prefix on which the predicate always holds. -/
theorem dropWhile_app_of_all {α : Type} (p : α → Bool) (a b : List α)
    (ha : ∀ x ∈ a, p x = true) :
    (a ++ b).dropWhile p = b.dropWhile p := by
  induction a with
  | nil => rfl
  | cons x a2 ih =>
    rw [List.cons_append, List.dropWhile_cons_of_pos (ha x (List.mem_cons_self x a2))]
    exact ih fun y hy => ha y (List.mem_cons_of_mem x hy)

/-- `takeWhile` keeps a list all of whose elements satisfy the predicate. -/
theorem takeWhile_of_all {α : Type} (p : α → Bool) (a : List α)
    (ha : ∀ x ∈ a, p x = true) : a.takeWhile p = a := by
  have h := takeWhile_app_of_all p a [] ha
  simpa using h

/-- `dropWhile` exhausts a list all of whose elements satisfy the predicate. -/
theorem dropWhile_of_all {α : Type} (p : α → Bool) (a : List α)
    (ha : ∀ x ∈ a, p x = true) : a.dropWhile p = [] := by
  have h := dropWhile_app_of_all p a [] ha
  simpa using h

/-- A digit-or-dot character differs from every character outside that
class. -/
theorem digit_dot_ne (c : Char) (h : c.isDigit = true ∨ c = '.') (d : Char)
    (hd : (d.isDigit || decide (d = '.')) = false) : ¬(c = d) := by
  intro he
  rcases h with h1 | h1
  · rw [he] at h1
    rw [h1] at hd
    simp at hd
  · rw [he] at h1
    rw [h1] at hd
    exact absurd hd (by decide)

/-- Digit-or-dot characters are not upper-case letters (`lcChar`'s guard). -/
theorem not_upper_of_digit_dot (c : Char) (h : c.isDigit = true ∨ c = '.') :
    ¬('A' ≤ c ∧ c ≤ 'Z') := by
  intro hu
  rcases h with h1 | h1
  · have h9 : c ≤ '9' := by
      unfold Char.isDigit at h1
      rw [Bool.and_eq_true] at h1
      exact of_decide_eq_true h1.2
    exact absurd (le_trans hu.1 h9) (by decide)
  · rw [h1] at hu
    exact absurd hu (by decide)

/-- Lower-casing fixes digit-or-dot characters. -/
theorem lcChar_id_of_digit_dot (c : Char) (h : c.isDigit = true ∨ c = '.') :
    lcChar c = c := by
  unfold lcChar
  rw [if_neg (not_upper_of_digit_dot c h)]

/-- No lower-cased digit-or-dot list starts with the literal `million`. -/
theorem startsWith_million_false (u : List Char)
    (hu : ∀ x ∈ u, x.isDigit = true ∨ x = '.') :
    startsWithL (u.map lcChar) (lit ("million")) = false := by
  cases u with
  | nil => rfl
  | cons a u2 =>
    have ha := hu a (List.mem_cons_self a u2)
    have hm : lit ("million") = 'm' :: lit ("illion") := rfl
    rw [List.map_cons, hm]
    simp [startsWithL, lcChar_id_of_digit_dot a ha, digit_dot_ne a ha 'm' (by decide)]

/-- The anchored `million` matcher never fires inside a digit-or-dot list. -/
theorem millionMatchAt_none_of_digit_dot (s : List Char)
    (hs : ∀ x ∈ s, x.isDigit = true ∨ x = '.') :
    millionMatchAt s = none := by
  cases s with
  | nil => rfl
  | cons c t =>
    have key : ∀ n : Nat,
        startsWithL ((((c :: t).drop n).dropWhile isWsChar).map lcChar)
          (lit ("million")) = false := by
      intro n
      apply startsWith_million_false
      intro x hx
      exact hs x (List.mem_of_mem_drop ((List.dropWhile_sublist isWsChar).subset hx))
    unfold millionMatchAt
    dsimp only
    by_cases hc : c.isDigit = true
    · rw [if_pos hc]
      simp only [key]
      rfl
    · rw [if_neg hc]

/-- The `X million` pattern never matches a digit-or-dot list. -/
theorem millionMatch_none_of_digit_dot (l : List Char) :
    (∀ x ∈ l, x.isDigit = true ∨ x = '.') → millionMatch l = none := by
  induction l with
  | nil => intro _; rfl
  | cons c t ih =>
    intro hl
    unfold millionMatch
    rw [millionMatchAt_none_of_digit_dot (c :: t) hl]
    exact ih fun x hx => hl x (List.mem_cons_of_mem c hx)

/-- JSON whitespace skipping is the identity on digit-headed input. -/
theorem jsonSkipWs_digit (c : Char) (t : List Char) (hc : c.isDigit = true) :
    jsonSkipWs (c :: t) = c :: t := by
  have hneg : ¬((decide (c = ' ') || decide (c = '\t') || decide (c = '\n') ||
      decide (c = '\r')) = true) := by
    simp [digit_dot_ne c (Or.inl hc) ' ' (by decide),
      digit_dot_ne c (Or.inl hc) '\t' (by decide),
      digit_dot_ne c (Or.inl hc) '\n' (by decide),
      digit_dot_ne c (Or.inl hc) '\r' (by decide)]
  unfold jsonSkipWs
  exact List.dropWhile_cons_of_neg hneg

/-- On digit-headed input the JSON value parser either fails or produces a
number literal: every structured-value branch is skipped. -/
theorem parseJsonValue_digit (n : Nat) (s : List Char) (c : Char) (t : List Char)
    (hskip : jsonSkipWs s = c :: t) (hc : c.isDigit = true) :
    parseJsonValue n s = none ∨
      ∃ raw rest, parseJsonValue n s = some (Json.num raw, rest) := by
  cases n with
  | zero => exact Or.inl rfl
  | succ m =>
    have h1 : ¬(c = '{') := digit_dot_ne c (Or.inl hc) '{' (by decide)
    have h2 : ¬(c = '[') := digit_dot_ne c (Or.inl hc) '[' (by decide)
    have h3 : ¬(c = '"') := digit_dot_ne c (Or.inl hc) '"' (by decide)
    have h4 : startsWithL (c :: t) (lit ("true")) = false := by
      have he : lit ("true") = 't' :: lit ("rue") := rfl
      rw [he]
      simp [startsWithL, digit_dot_ne c (Or.inl hc) 't' (by decide)]
    have h5 : startsWithL (c :: t) (lit ("false")) = false := by
      have he : lit ("false") = 'f' :: lit ("alse") := rfl
      rw [he]
      simp [startsWithL, digit_dot_ne c (Or.inl hc) 'f' (by decide)]
    have h6 : startsWithL (c :: t) (lit ("null")) = false := by
      have he : lit ("null") = 'n' :: lit ("ull") := rfl
      rw [he]
      simp [startsWithL, digit_dot_ne c (Or.inl hc) 'n' (by decide)]
    unfold parseJsonValue
    rw [hskip]
    dsimp only
    rw [if_neg h1, if_neg h2, if_neg h3,
      if_neg (fun hcond => by rw [hcond] at h4; cases h4),
      if_neg (fun hcond => by rw [hcond] at h5; cases h5),
      if_neg (fun hcond => by rw [hcond] at h6; cases h6),
      if_pos (by simp [hc])]
    cases hp : parseJsonNumber (c :: t) with
    | none => exact Or.inl rfl
    | some p => exact Or.inr ⟨String.mk p.1, p.2, rfl⟩

/-- The JSON branch of `extractNumericValue` yields nothing on digit-headed
input: at best the parse produces a bare number, which carries no
`population` field and enumerates no keys. -/
theorem jsonExtract_none_of_digit (s : String) (c : Char) (t : List Char)
    (hl : s.toList = c :: t) (hc : c.isDigit = true) :
    jsonExtract s = none := by
  have hskip : jsonSkipWs s.toList = c :: t := by
    rw [hl]
    exact jsonSkipWs_digit c t hc
  rcases parseJsonValue_digit (s.length * 2 + 2) s.toList c t hskip hc with
    hnone | ⟨raw, rest, hsome⟩
  · unfold jsonExtract parseJson
    rw [hnone]
  · unfold jsonExtract parseJson
    rw [hsome]
    dsimp only
    by_cases hrest : (jsonSkipWs rest).isEmpty = true
    · rw [if_pos hrest]
      rfl
    · rw [if_neg hrest]

/-- The comma-format matcher returns a bare numeral (digit run, optional dot
and digit run) whole. -/
theorem formattedNumberMatch_numeral (int rest : List Char)
    (hne : int ≠ []) (hint : ∀ x ∈ int, x.isDigit = true)
    (hrest : rest = [] ∨ ∃ f, rest = '.' :: f ∧ f ≠ [] ∧ ∀ x ∈ f, x.isDigit = true) :
    formattedNumberMatch (int ++ rest) = some (int ++ rest) := by
  obtain ⟨c0, i, rfl⟩ : ∃ c0 i, int = c0 :: i := by
    cases int with
    | nil => exact absurd rfl hne
    | cons a b => exact ⟨a, b, rfl⟩
  have hidc : ∀ x ∈ c0 :: i, isDigitCommaChar x = true := by
    intro x hx
    unfold isDigitCommaChar
    rw [hint x hx]
    rfl
  have hc0 : isDigitCommaChar c0 = true := hidc c0 (List.mem_cons_self c0 i)
  have hdotneg : ¬(isDigitCommaChar '.' = true) := by decide
  rcases hrest with rfl | ⟨f, rfl, hfne, hfd⟩
  · rw [List.append_nil]
    unfold formattedNumberMatch
    rw [if_pos hc0]
    rw [dropWhile_of_all isDigitCommaChar (c0 :: i) hidc]
    dsimp only
    rw [takeWhile_of_all isDigitCommaChar (c0 :: i) hidc]
  · obtain ⟨d, f2, rfl⟩ : ∃ d f2, f = d :: f2 := by
      cases f with
      | nil => exact absurd rfl hfne
      | cons a b => exact ⟨a, b, rfl⟩
    have hd : d.isDigit = true := hfd d (List.mem_cons_self d f2)
    have htk : (c0 :: (i ++ '.' :: d :: f2)).takeWhile isDigitCommaChar = c0 :: i := by
      rw [← List.cons_append,
        takeWhile_app_of_all isDigitCommaChar (c0 :: i) ('.' :: d :: f2) hidc,
        List.takeWhile_cons_of_neg hdotneg, List.append_nil]
    have hdr : (c0 :: (i ++ '.' :: d :: f2)).dropWhile isDigitCommaChar =
        '.' :: d :: f2 := by
      rw [← List.cons_append,
        dropWhile_app_of_all isDigitCommaChar (c0 :: i) ('.' :: d :: f2) hidc]
      exact List.dropWhile_cons_of_neg hdotneg
    rw [List.cons_append]
    unfold formattedNumberMatch
    rw [if_pos hc0]
    rw [hdr]
    show (if d.isDigit = true then
        some ((c0 :: (i ++ '.' :: d :: f2)).takeWhile isDigitCommaChar ++
          '.' :: (('.' :: d :: f2).drop 1).takeWhile Char.isDigit)
      else some ((c0 :: (i ++ '.' :: d :: f2)).takeWhile isDigitCommaChar)) =
      some (c0 :: (i ++ '.' :: d :: f2))
    rw [if_pos hd, htk]
    have hdrop : ('.' :: d :: f2).drop 1 = d :: f2 := rfl
    rw [hdrop, takeWhile_of_all Char.isDigit (d :: f2) hfd, List.cons_append]

/-- Comma removal is the identity on digit-or-dot lists. -/
theorem stripCommas_id (l : List Char) :
    (∀ x ∈ l, x.isDigit = true ∨ x = '.') → stripCommas l = l := by
  induction l with
  | nil => intro _; rfl
  | cons c t ih =>
    intro hl
    unfold stripCommas
    rw [List.filter_cons]
    have hcm : ¬(c = ',') := digit_dot_ne c (hl c (List.mem_cons_self c t)) ',' (by decide)
    rw [if_pos (decide_eq_true hcm)]
    have ht := ih fun x hx => hl x (List.mem_cons_of_mem c hx)
    unfold stripCommas at ht
    rw [ht]

/-- Destructuring of a bare numeral: a non-empty digit run, followed by
nothing or by a dot and a non-empty digit run. -/
theorem isBareNumeral_spec (s : String) (h : isBareNumeral s = true) :
    ∃ int rest, s.toList = int ++ rest ∧ int ≠ [] ∧ (∀ x ∈ int, x.isDigit = true) ∧
      (rest = [] ∨ ∃ f, rest = '.' :: f ∧ f ≠ [] ∧ ∀ x ∈ f, x.isDigit = true) := by
  unfold isBareNumeral at h
  dsimp only at h
  rw [Bool.and_eq_true] at h
  obtain ⟨hint, hrest⟩ := h
  refine ⟨s.toList.takeWhile Char.isDigit, s.toList.dropWhile Char.isDigit,
    (List.takeWhile_append_dropWhile Char.isDigit s.toList).symm, ?_, ?_, ?_⟩
  · intro hnil
    rw [hnil] at hint
    simp at hint
  · intro x hx
    exact List.mem_takeWhile_imp hx
  · rw [Bool.or_eq_true] at hrest
    rcases hrest with hnil | hdot
    · left
      exact List.isEmpty_iff.mp hnil
    · right
      rw [Bool.and_eq_true, Bool.and_eq_true] at hdot
      obtain ⟨⟨hhead, hnemp⟩, hall⟩ := hdot
      cases hr : s.toList.dropWhile Char.isDigit with
      | nil =>
        rw [hr] at hhead
        simp at hhead
      | cons a f =>
        rw [hr] at hhead hnemp hall
        have ha : a = '.' := by
          have hh := of_decide_eq_true hhead
          simpa using hh
        subst ha
        refine ⟨f, rfl, ?_, ?_⟩
        · intro hfnil
          rw [hfnil] at hnemp
          simp at hnemp
        · intro x hx
          have hall2 : f.all Char.isDigit = true := hall
          rw [List.all_eq_true] at hall2
          exact hall2 x hx

/-! ## Claim theorems -/

/-- C10: for a two-sub-question decomposition whose second sub-question
depends on the first, collecting the first result force-terminates: the
collector sets `processingComplete` (the valve fires at
`1 ≥ floor(2 / 2)` with a positive completed count), the edge routes to
`aggregateResults`, and the second sub-question is still not completed, so
its tool is never executed. -/
theorem c10_two_step_force_termination (q serpQ out id1 id2 t1 t2 tool1 tool2 : String)
    (h : id2 ≠ id1) :
    let p1 : SubQuestion := ⟨id1, t1, tool1, [], false, none⟩
    let p2 : SubQuestion := ⟨id2, t2, tool2, [id1], false, none⟩
    let st := { initialState q serpQ with
                isMultishot := true
                subQuestions := [p1, p2]
                currentSubQuestion := some p1
                toolOutput := some out }
    let s2 := resultsCollectorNode st
    s2.processingComplete = true ∧
    collectRoute s2 = "complete" ∧
    s2.subQuestions = [{ p1 with completed := true, result := some out }, p2] ∧
    (s2.subQuestions.map fun sq => sq.completed) = [true, false] ∧
    s2.currentSubQuestion = none := by
  intro p1 p2 st s2
  have hne : ¬(id2 = id1) := h
  constructor
  · simp [s2, st, resultsCollectorNode, collectMark, collectDone, collectResultToStore,
          initialState, countCompleted, hne]
  constructor
  · simp [s2, st, collectRoute, resultsCollectorNode, collectMark, collectDone,
          collectResultToStore, initialState, countCompleted, hne]
  constructor
  · simp [s2, st, resultsCollectorNode, collectMark, collectDone, collectResultToStore,
          initialState, countCompleted, hne, p1, p2]
  constructor
  · simp [s2, st, resultsCollectorNode, collectMark, collectDone, collectResultToStore,
          initialState, countCompleted, hne, p1, p2]
  · simp [s2, st, resultsCollectorNode, collectMark, collectDone, collectResultToStore,
          initialState, countCompleted, hne]

/-- C10 witness: the concrete two-step run. -/
theorem c10_two_step_force_termination_witness :
    ("q2" : String) ≠ "q1" ∧
    (let p1 : SubQuestion := ⟨"q1", "find the population", "serpapi", [], false, none⟩
     let p2 : SubQuestion := ⟨"q2", "scale the population", "calculator", ["q1"], false, none⟩
     let st := { initialState ("population of chicago times 0.05") "" with
                 isMultishot := true
                 subQuestions := [p1, p2]
                 currentSubQuestion := some p1
                 toolOutput := some ("4600000") }
     let s2 := resultsCollectorNode st
     s2.processingComplete = true ∧
     collectRoute s2 = "complete" ∧
     s2.subQuestions = [{ p1 with completed := true, result := some ("4600000") }, p2] ∧
     (s2.subQuestions.map fun sq => sq.completed) = [true, false] ∧
     s2.currentSubQuestion = none) :=
  ⟨by decide,
   c10_two_step_force_termination ("population of chicago times 0.05") ""
     ("4600000") ("q1") ("q2") ("find the population") ("scale the population")
     ("serpapi") ("calculator") (by decide)⟩

/-- C8: a query matching a calculator pattern and no composite pattern is
classified `calculator` — never `serpapi` — by the analysis node of the
multishot graph and by the one of the plain tool-selection graph, for any
search-tool availability and any analyzer outcome. -/
theorem c8_calculator_priority (q serpQ : String) (serpAvailable : Bool)
    (analyzerOutcome : Except String String)
    (hm : multishotMatch q = false) (hc : calculatorMatch q = true) :
    queryAnalysisNode serpAvailable analyzerOutcome (initialState q serpQ) =
      .ok { initialState q serpQ with
            selectedTool := some ("calculator")
            analysis := calculatorAnalysisText
            requiresDecomposition := false } ∧
    queryAnalysisNodeTS serpAvailable analyzerOutcome (initialState q serpQ) =
      .ok { initialState q serpQ with
            selectedTool := some ("calculator")
            analysis := calculatorAnalysisText } := by
  constructor
  · simp [queryAnalysisNode, initialState, hm, hc]
  · simp [queryAnalysisNodeTS, initialState, hc]

/-- C8 witness: `calculate 25 * 4` matches a calculator pattern, no
composite pattern, and is classified `calculator` with a search tool
present. -/
theorem c8_calculator_priority_witness :
    multishotMatch ("calculate 25 * 4") = false ∧
    calculatorMatch ("calculate 25 * 4") = true ∧
    (queryAnalysisNode true (Except.ok ("ignored")) (initialState ("calculate 25 * 4") "") =
      .ok { initialState ("calculate 25 * 4") "" with
            selectedTool := some ("calculator")
            analysis := calculatorAnalysisText
            requiresDecomposition := false } ∧
     queryAnalysisNodeTS true (Except.ok ("ignored")) (initialState ("calculate 25 * 4") "") =
      .ok { initialState ("calculate 25 * 4") "" with
            selectedTool := some ("calculator")
            analysis := calculatorAnalysisText }) :=
  ⟨by decide, by decide,
   c8_calculator_priority ("calculate 25 * 4") "" true (Except.ok ("ignored"))
     (by decide) (by decide)⟩

/-- C3: evaluation of the single-tool search path at the failing input. The
query is classified `serpapi` by pattern, the adapter throws on its only
invocation, the node's `catch` selects the RAG fallback in state, but the
tool-exit edge routes the non-multishot state to `END`, so no RAG or direct
answer is ever produced: `finalResponse` stays unset and the wrapper's canned
apology is returned (with `toolUsed` reporting the never-executed `rag`).
The exception is not propagated and the returned text contains no tool-error
text — but it is not a model-produced direct answer, contradicting the
claim's fallback behavior (and the `catch`'s own stated intent of falling
back to RAG). -/
theorem c3_search_throw_eval :
    runSingleToolSerp true (Except.ok ("ignored")) (Except.ok ("latest news on ai"))
        (Except.error ("Error: network down")) (Except.ok ("unused")) ("latest news on ai") "" =
      Except.ok { response := noResponseFallback
                  toolUsed := some ("rag")
                  analysis := "Attempted to use SerpAPI but failed: Error: network down"
                  isMultishot := false } ∧
    noResponseFallback = "I couldn't process your request. Please try again." ∧
    noResponseFallback ≠ "" ∧
    containsL (lit noResponseFallback) (lit ("Error")) = false ∧
    containsL (lit noResponseFallback) (lit ("error")) = false ∧
    containsL (lit noResponseFallback) (lit ("SerpAPI")) = false := by
  decide

/-- C6 counterexample: when the global wall-clock race is lost to the timer,
the caller receives the outer catch's fixed message with
`toolUsed = "error"` — not the Aggregate fallback — and no partial
sub-question result appears in it, even though a completed result
(`4600000`) exists in the run state and the Aggregate fallback would have
reported it. -/
theorem c6_timeout_counterexample :
    invokeRaceResult RaceOutcome.timerFirst = outerCatchResult globalTimeoutErrorMessage ∧
    (invokeRaceResult RaceOutcome.timerFirst).toolUsed = some ("error") ∧
    containsL (lit (invokeRaceResult RaceOutcome.timerFirst).response)
      (lit ("I found answers to parts of your question")) = false ∧
    containsL (lit (invokeRaceResult RaceOutcome.timerFirst).response) (lit ("4600000")) = false ∧
    containsL (lit (aggregationFallbackResponse c6PartialState)) (lit ("4600000")) = true := by
  decide

/-- C6 (amended): on expiry of the global ceiling the race rejects and the
outer catch promptly returns a response naming the timeout, with
`toolUsed = "error"`; the response is non-empty but is a fixed error message
built only from the timeout text, independent of (and not carrying) any
partial sub-question state, and it is not produced by the Aggregate
fallback. -/
theorem c6_timeout_amended :
    invokeRaceResult RaceOutcome.timerFirst = outerCatchResult globalTimeoutErrorMessage ∧
    (invokeRaceResult RaceOutcome.timerFirst).toolUsed = some ("error") ∧
    containsL (lit (invokeRaceResult RaceOutcome.timerFirst).response)
      (lit globalTimeoutErrorMessage) = true ∧
    (invokeRaceResult RaceOutcome.timerFirst).response ≠ "" ∧
    (invokeRaceResult RaceOutcome.timerFirst).response ≠
      aggregationFallbackResponse c6PartialState := by
  decide

/-- C7 counterexample: for the verbatim Scenario-B query the composite
pattern does match, but `createDefaultDecomposition`'s own gate does not
(`multiplied by` contains neither `multiply` nor `times` as a substring), so
the template yields the generic two-step decomposition: two sub-questions,
only one of them a search, instead of one search sub-question per detected
city plus two calculator steps. -/
theorem c7_template_counterexample :
    multishotMatch scenarioBQuery = true ∧
    defaultDecompGate scenarioBQuery = false ∧
    (createDefaultDecomposition scenarioBQuery).length = 2 ∧
    ((createDefaultDecomposition scenarioBQuery).filter fun sq =>
      sq.toolType == "serpapi").length = 1 := by
  decide

/-- C7 (amended): the composite pattern matches the Scenario-B query, but
the deterministic template produces the generic fallback for it (one search
over the whole query and one dependent calculator step); the per-city
structure of the claim is produced exactly when the template gate fires,
e.g. with `times` in place of `multiplied by`: one search sub-question per
detected city with empty dependencies, an addition step depending on both,
and a multiplication step for the detected 0.05 depending on the
addition. -/
theorem c7_template_amended :
    multishotMatch scenarioBQuery = true ∧
    createDefaultDecomposition scenarioBQuery =
      [{ id := "q1"
         question := "Search for information related to: " ++ scenarioBQuery
         toolType := "serpapi", dependsOn := [], completed := false, result := none },
       { id := "q2"
         question := "Perform any necessary calculations on the retrieved information"
         toolType := "calculator", dependsOn := ["q1"], completed := false, result := none }] ∧
    multishotMatch scenarioBTimesQuery = true ∧
    createDefaultDecomposition scenarioBTimesQuery =
      [{ id := "q1", question := "What is the current population of chicago?"
         toolType := "serpapi", dependsOn := [], completed := false, result := none },
       { id := "q2", question := "What is the current population of houston?"
         toolType := "serpapi", dependsOn := [], completed := false, result := none },
       { id := "q3", question := "Add the populations of chicago and houston"
         toolType := "calculator", dependsOn := ["q1", "q2"], completed := false, result := none },
       { id := "q4", question := "Multiply the combined population by 0.05"
         toolType := "calculator", dependsOn := ["q3"], completed := false, result := none }] := by
  decide

/-- C1 counterexample: with the deadlocked (but validation-passing)
decomposition, collecting `q1` routes to `aggregateResults` although only
one of four sub-questions is completed — below the half threshold, below
the 20-step ceiling, and with incomplete sub-questions remaining. -/
theorem c1_deadlock_counterexample :
    collectRoute (resultsCollectorNode c1DeadlockState) = "complete" ∧
    (resultsCollectorNode c1DeadlockState).subQuestions.all (fun sq => sq.completed) = false ∧
    countCompleted (resultsCollectorNode c1DeadlockState).subQuestions = 1 ∧
    ¬((resultsCollectorNode c1DeadlockState).subQuestions.length / 2 ≤
        countCompleted (resultsCollectorNode c1DeadlockState).subQuestions) ∧
    countCompleted (resultsCollectorNode c1DeadlockState).subQuestions ≤ 20 ∧
    deadlockSubQuestions.all validSubQuestion = true := by
  decide

/-- C1 (amended): when the results collector's edge routes to
`aggregateResults`, either every sub-question is completed, or the safety
valve fired (positive completed count of at least half the total), or the
absolute 20-step ceiling was crossed, or no remaining sub-question has all
its dependencies completed (a dependency deadlock — the case the original
claim omits), or the collector was entered without a current sub-question
(its defensive error branch).  Moreover each collection step with a pending
current sub-question strictly increases the completed count, so the
`CollectResult`/`RouteSubQuestion` loop cannot iterate unboundedly. -/
theorem c1_collector_aggregate_invariant :
    (∀ state : ToolSelectionState,
      collectRoute (resultsCollectorNode state) = "complete" →
      (resultsCollectorNode state).subQuestions.all (fun sq => sq.completed) = true ∨
      (0 < countCompleted (resultsCollectorNode state).subQuestions ∧
        (resultsCollectorNode state).subQuestions.length / 2 ≤
          countCompleted (resultsCollectorNode state).subQuestions) ∨
      20 < countCompleted (resultsCollectorNode state).subQuestions ∨
      findNextSubQuestion (resultsCollectorNode state).subQuestions = none ∨
      state.currentSubQuestion = none) ∧
    (∀ (state : ToolSelectionState) (cur : SubQuestion),
      state.currentSubQuestion = some cur →
      (∃ sq, sq ∈ state.subQuestions ∧ sq.id = cur.id ∧ sq.completed = false) →
      countCompleted state.subQuestions + 1 ≤
        countCompleted (resultsCollectorNode state).subQuestions) := by
  constructor
  · intro state h
    cases hcur : state.currentSubQuestion with
    | none => exact Or.inr (Or.inr (Or.inr (Or.inr rfl)))
    | some cur =>
      rcases collectRoute_complete _ h with h20 | hpc
      · exact Or.inr (Or.inr (Or.inl h20))
      · unfold resultsCollectorNode at hpc ⊢
        rw [hcur] at hpc ⊢
        dsimp only at hpc ⊢
        by_cases hdone : collectDone (collectMark state cur)
        · rw [if_pos hdone] at hpc ⊢
          dsimp only at hpc ⊢
          rcases hdone with hall | hforce
          · exact Or.inl hall
          · exact Or.inr (Or.inl hforce)
        · rw [if_neg hdone] at hpc ⊢
          dsimp only at hpc ⊢
          exact Or.inr (Or.inr (Or.inr (Or.inl (Option.isNone_iff_eq_none.mp hpc))))
  · intro state cur hcur hex
    unfold resultsCollectorNode
    rw [hcur]
    dsimp only
    by_cases hdone : collectDone (collectMark state cur)
    · rw [if_pos hdone]
      dsimp only
      exact countCompleted_mark_succ state.subQuestions cur.id (collectResultToStore state) hex
    · rw [if_neg hdone]
      dsimp only
      exact countCompleted_mark_succ state.subQuestions cur.id (collectResultToStore state) hex

/-- C1 witness: the amended invariant and the progress bound instantiated on
the deadlocked run, with every hypothesis discharged concretely. -/
theorem c1_collector_aggregate_invariant_witness :
    (collectRoute (resultsCollectorNode c1DeadlockState) = "complete" ∧
      ((resultsCollectorNode c1DeadlockState).subQuestions.all (fun sq => sq.completed) = true ∨
       (0 < countCompleted (resultsCollectorNode c1DeadlockState).subQuestions ∧
         (resultsCollectorNode c1DeadlockState).subQuestions.length / 2 ≤
           countCompleted (resultsCollectorNode c1DeadlockState).subQuestions) ∨
       20 < countCompleted (resultsCollectorNode c1DeadlockState).subQuestions ∨
       findNextSubQuestion (resultsCollectorNode c1DeadlockState).subQuestions = none ∨
       c1DeadlockState.currentSubQuestion = none)) ∧
    (c1DeadlockState.currentSubQuestion = some deadlockQ1 ∧
      countCompleted c1DeadlockState.subQuestions + 1 ≤
        countCompleted (resultsCollectorNode c1DeadlockState).subQuestions) :=
  ⟨⟨by decide, c1_collector_aggregate_invariant.1 c1DeadlockState (by decide)⟩,
   ⟨by decide,
    c1_collector_aggregate_invariant.2 c1DeadlockState deadlockQ1 (by decide)
      ⟨deadlockQ1, by decide, rfl, rfl⟩⟩⟩

/-- C2 counterexample: the query `population of paris times 2` is flagged
composite, the template's population gate matches, but no hard-coded city is
recognized, so `createDefaultDecomposition` returns the empty list and the
model-timeout path of the decomposition node returns a state with no
sub-questions and no current sub-question. -/
theorem c2_empty_decomposition_counterexample :
    multishotMatch parisQuery = true ∧
    defaultDecompGate parisQuery = true ∧
    createDefaultDecomposition parisQuery = [] ∧
    (decompositionTimeoutState (initialState parisQuery "")).subQuestions = [] ∧
    (decompositionTimeoutState (initialState parisQuery "")).currentSubQuestion = none := by
  decide

/-- C2 (amended): whenever the template decomposition is non-empty — i.e.
except in the gate-matched-but-no-known-city case of the counterexample —
the model-timeout path returns a non-empty sub-question list whose current
sub-question has no dependencies; the main path's validation fix-up clears
the first sub-question's dependency list (and starts there) whenever no
entry-eligible sub-question exists; and the emergency fallback decomposition
always starts with a dependency-free search sub-question over the whole
query. -/
theorem c2_decomposition_entry_amended :
    (∀ st : ToolSelectionState, createDefaultDecomposition st.query ≠ [] →
      (decompositionTimeoutState st).subQuestions ≠ [] ∧
      ∃ sq, (decompositionTimeoutState st).currentSubQuestion = some sq ∧
        sq.dependsOn = []) ∧
    (∀ (st : ToolSelectionState) (sqs : List SubQuestion), sqs ≠ [] →
      findNextSubQuestion sqs = none →
      ∃ first rest, sqs = first :: rest ∧
        (decompFinalize st sqs).subQuestions = { first with dependsOn := [] } :: rest ∧
        (decompFinalize st sqs).currentSubQuestion = some { first with dependsOn := [] }) ∧
    (∀ q : String, ∃ rest, emergencyDecomposition q =
      { id := "q1", question := q, toolType := "serpapi", dependsOn := [],
        completed := false, result := none } :: rest) := by
  refine ⟨?_, ?_, ?_⟩
  · intro st h
    rcases createDefaultDecomposition_shape st.query with hnil | ⟨sq, rest, heq, hdeps⟩
    · exact absurd hnil h
    · constructor
      · unfold decompositionTimeoutState
        dsimp only
        rw [heq]
        simp
      · refine ⟨sq, ?_, hdeps⟩
        unfold decompositionTimeoutState
        dsimp only
        rw [heq, List.find?_cons_of_pos]
        simp [hdeps]
  · intro st sqs hne hfind
    cases sqs with
    | nil => exact absurd rfl hne
    | cons first rest =>
      exact ⟨first, rest, rfl, by simp [decompFinalize, hfind], by simp [decompFinalize, hfind]⟩
  · intro q
    unfold emergencyDecomposition
    dsimp only
    split
    · exact ⟨_, rfl⟩
    · exact ⟨_, rfl⟩

/-- C2 witness: the amended statement instantiated on a gate-matching query
with a recognized city (timeout path), on a two-cycle decomposition (fix-up
path), and on an arithmetic query (emergency path). -/
theorem c2_decomposition_entry_amended_witness :
    (createDefaultDecomposition
        (initialState ("population of chicago times 0.05") "").query ≠ [] ∧
      ((decompositionTimeoutState
          (initialState ("population of chicago times 0.05") "")).subQuestions ≠ [] ∧
       ∃ sq, (decompositionTimeoutState
          (initialState ("population of chicago times 0.05") "")).currentSubQuestion = some sq ∧
         sq.dependsOn = [])) ∧
    (noEntrySubQuestions ≠ [] ∧
      findNextSubQuestion noEntrySubQuestions = none ∧
      ∃ first rest, noEntrySubQuestions = first :: rest ∧
        (decompFinalize (initialState ("cycle") "") noEntrySubQuestions).subQuestions =
          { first with dependsOn := [] } :: rest ∧
        (decompFinalize (initialState ("cycle") "") noEntrySubQuestions).currentSubQuestion =
          some { first with dependsOn := [] }) ∧
    (∃ rest, emergencyDecomposition ("calculate the sum of the populations") =
      { id := "q1", question := "calculate the sum of the populations", toolType := "serpapi",
        dependsOn := [], completed := false, result := none } :: rest) :=
  ⟨⟨by decide,
    c2_decomposition_entry_amended.1
      (initialState ("population of chicago times 0.05") "") (by decide)⟩,
   ⟨by decide, by decide,
    c2_decomposition_entry_amended.2.1 (initialState ("cycle") "") noEntrySubQuestions
      (by decide) (by decide)⟩,
   c2_decomposition_entry_amended.2.2 ("calculate the sum of the populations")⟩

/-- C4 counterexample: with no intermediate results, the resolver leaves the
`q1` reference in `q1 + 5` unresolved — but the downstream sanitization
strips only the letter, producing the well-formed expression `1 + 5`, which
the calculator node's empty-expression guard does not reject: the unresolved
reference is silently turned into the operand `1` instead of being treated
as a tool error. -/
theorem c4_sanitizer_counterexample :
    resolveCalculatorDependencies ("q1 + 5") [] = "q1 + 5" ∧
    sanitizeExpression (resolveCalculatorDependencies ("q1 + 5") []) = "1 + 5" ∧
    sanitizedExpressionRejected
      (sanitizeExpression (resolveCalculatorDependencies ("q1 + 5") [])) = false := by
  decide

/-- C4 (amended): when no intermediate result yields a usable numeric value,
the generic substitution pass leaves every dependency reference unresolved in
place (for any `Sum`-free expression), and inside a `Sum()` rewrite the
unresolved reference becomes the logged fallback `0`; but the downstream
calculator step does not treat a leftover reference as a tool error: its
sanitization deletes only the letter, so `q1 + 5` reaches the calculator as
`1 + 5` — the reference's index digit silently becomes an operand, and the
empty-expression guard does not fire. -/
theorem c4_unresolved_reference_amended :
    (∀ (expression : String) (ir : List (String × String)),
      sumSplitFrom expression.toList = none →
      (∀ k r, recordGet ir k = some r →
        extractNumericValue r = none ∨ extractNumericValue r = some "" ∨ r = "") →
      resolveCalculatorDependencies expression ir = expression) ∧
    resolveCalculatorDependencies ("Sum(q1, q2)") [] = "(0 + 0)" ∧
    sanitizeExpression ("q1 + 5") = "1 + 5" ∧
    sanitizedExpressionRejected ("1 + 5") = false := by
  refine ⟨?_, by decide, by decide, by decide⟩
  intro expression ir hsum h
  unfold resolveCalculatorDependencies
  rw [resolveCalcAux.eq_def]
  dsimp only
  rw [hsum]
  by_cases hq : hasQRef none expression.toList = true
  · rw [if_pos hq]
    unfold qRefReplace
    rw [qRefReplaceFuel_unresolved ir h]
    rfl
  · rw [if_neg hq]
    rfl

/-- C4 witness: the amended statement instantiated at the unresolved
`q1 + 5` with an empty intermediate-result map. -/
theorem c4_unresolved_reference_amended_witness :
    (sumSplitFrom ("q1 + 5" : String).toList = none ∧
      resolveCalculatorDependencies ("q1 + 5") [] = "q1 + 5") ∧
    resolveCalculatorDependencies ("Sum(q1, q2)") [] = "(0 + 0)" ∧
    sanitizeExpression ("q1 + 5") = "1 + 5" ∧
    sanitizedExpressionRejected ("1 + 5") = false :=
  ⟨⟨by decide,
    c4_unresolved_reference_amended.1 ("q1 + 5") [] (by decide)
      (fun k r hkr => by simp [recordGet] at hkr)⟩,
   c4_unresolved_reference_amended.2.1,
   c4_unresolved_reference_amended.2.2.1,
   c4_unresolved_reference_amended.2.2.2⟩

/-- C5 (amended): when the analysis node reaches the model-assisted analyzer
(no pattern fired) and the model invocation throws, the error escapes the
node unchanged (it is caught only by the run-level wrapper, not converted to
a Direct classification); when the analyzer returns text containing none of
the known labels, the node does default the classification to `rag` (the
Direct answer path). -/
theorem c5_analyzer_error_amended :
    (∀ (st : ToolSelectionState) (serpAvailable : Bool) (e : String),
      (multishotMatch st.query && serpAvailable) = false →
      calculatorMatch st.query = false →
      (serpAvailable && decide (st.query ≠ "") && decide (trimString st.query ≠ "") &&
        serpApiMatch st.query) = false →
      queryAnalysisNode serpAvailable (Except.error e) st = Except.error e) ∧
    (∀ (st : ToolSelectionState) (serpAvailable : Bool) (text : String),
      (multishotMatch st.query && serpAvailable) = false →
      calculatorMatch st.query = false →
      (serpAvailable && decide (st.query ≠ "") && decide (trimString st.query ≠ "") &&
        serpApiMatch st.query) = false →
      containsL (lc text) (lit ("multishot")) = false →
      containsL (lc text) (lit ("calculator")) = false →
      (containsL (lc text) (lit ("serpapi")) && serpAvailable) = false →
      queryAnalysisNode serpAvailable (Except.ok text) st =
        Except.ok { st with
                    selectedTool := some ("rag")
                    analysis := text
                    requiresDecomposition := false }) := by
  constructor
  · intro st serp e h1 h2 h3
    unfold queryAnalysisNode
    dsimp only
    rw [if_neg (fun hcond => by rw [hcond] at h1; cases h1),
        if_neg (fun hcond => by rw [hcond] at h2; cases h2),
        if_neg (fun hcond => by rw [hcond] at h3; cases h3)]
  · intro st serp text h1 h2 h3 hm hc hs
    unfold queryAnalysisNode
    dsimp only
    rw [if_neg (fun hcond => by rw [hcond] at h1; cases h1),
        if_neg (fun hcond => by rw [hcond] at h2; cases h2),
        if_neg (fun hcond => by rw [hcond] at h3; cases h3)]
    rw [if_neg (fun hcond => by rw [hcond] at hm; cases hm),
        if_neg (fun hcond => by rw [hcond] at hc; cases hc),
        if_neg (fun hcond => by rw [hcond] at hs; cases hs)]

/-- C5 witness: the amended statement instantiated on the pattern-free query
`tell me a joke`, once with a throwing model and once with an
unclassifiable analyzer answer. -/
theorem c5_analyzer_error_amended_witness :
    ((multishotMatch (initialState ("tell me a joke") "").query && true) = false ∧
     calculatorMatch (initialState ("tell me a joke") "").query = false ∧
     queryAnalysisNode true (Except.error ("Error: model down"))
        (initialState ("tell me a joke") "") = Except.error ("Error: model down")) ∧
    (containsL (lc ("I cannot classify this")) (lit ("multishot"))) = false ∧
    queryAnalysisNode true (Except.ok ("I cannot classify this"))
        (initialState ("tell me a joke") "") =
      Except.ok { initialState ("tell me a joke") "" with
                  selectedTool := some ("rag")
                  analysis := "I cannot classify this"
                  requiresDecomposition := false } :=
  ⟨⟨by decide, by decide,
    c5_analyzer_error_amended.1 (initialState ("tell me a joke") "") true ("Error: model down")
      (by decide) (by decide) (by decide)⟩,
   by decide,
   c5_analyzer_error_amended.2 (initialState ("tell me a joke") "") true ("I cannot classify this")
     (by decide) (by decide) (by decide) (by decide) (by decide) (by decide)⟩

/-- C5 counterexample: for a query matching no pattern, a throwing model
invocation escapes the analysis node as an error — it is not converted into
a `Direct`/`rag` classification inside the analyzer layer. -/
theorem c5_analyzer_throw_counterexample :
    multishotMatch ("tell me a joke") = false ∧
    calculatorMatch ("tell me a joke") = false ∧
    serpApiMatch ("tell me a joke") = false ∧
    queryAnalysisNode true (Except.error ("Error: model unavailable"))
        (initialState ("tell me a joke") "") =
      Except.error ("Error: model unavailable") := by
  decide

/-- C9: `extractNumericValue`, the resolver's numeric extraction (source
lines 294–360), maps every bare decimal numeral string to itself (`some s`):
the JSON branch yields nothing on such input, the `X million` pattern cannot
fire, and the comma-format pattern matches the whole string with no commas to
strip.  Consequently the extraction is idempotent on these outputs: whatever
it returns for a bare numeral, a second application returns the same string
again. -/
theorem c9 (s : String) (h : isBareNumeral s = true) :
    extractNumericValue s = some s ∧
      ∀ t, extractNumericValue s = some t → extractNumericValue t = some t := by
  obtain ⟨int, rest, hl, hne, hint, hrest⟩ := isBareNumeral_spec s h
  have hdd : ∀ x ∈ s.toList, x.isDigit = true ∨ x = '.' := by
    intro x hx
    rw [hl] at hx
    rcases List.mem_append.mp hx with hxa | hxb
    · exact Or.inl (hint x hxa)
    · rcases hrest with rfl | ⟨f, rfl, hfne, hfd⟩
      · cases hxb
      · rcases List.mem_cons.mp hxb with he | hm
        · exact Or.inr he
        · exact Or.inl (hfd x hm)
  obtain ⟨c0, i, hic⟩ : ∃ c0 i, int = c0 :: i := by
    cases int with
    | nil => exact absurd rfl hne
    | cons a b => exact ⟨a, b, rfl⟩
  have hc0 : c0.isDigit = true := hint c0 (by rw [hic]; exact List.mem_cons_self c0 i)
  have hl0 : s.toList = c0 :: (i ++ rest) := by rw [hl, hic, List.cons_append]
  have hjson : jsonExtract s = none := jsonExtract_none_of_digit s c0 (i ++ rest) hl0 hc0
  have hmil : millionMatch s.toList = none := millionMatch_none_of_digit_dot s.toList hdd
  have hfmt : formattedNumberMatch s.toList = some s.toList := by
    rw [hl]
    exact formattedNumberMatch_numeral int rest hne hint hrest
  have hstrip : stripCommas s.toList = s.toList := stripCommas_id s.toList hdd
  have hmain : extractNumericValue s = some s := by
    unfold extractNumericValue
    rw [hjson]
    dsimp only
    rw [hmil]
    dsimp only
    rw [hfmt]
    dsimp only
    rw [hstrip]
    rfl
  refine ⟨hmain, ?_⟩
  intro t ht
  rw [hmain] at ht
  injection ht with hts
  rw [← hts]
  exact hmain

/-- C9 witness: the spec's own example `42` is a bare numeral and is
extracted unchanged. -/
theorem c9_witness :
    isBareNumeral ("42") = true ∧ extractNumericValue ("42") = some ("42") :=
  ⟨by decide, (c9 ("42") (by decide)).1⟩

end ToolSelection
